import Mathlib

/-!
# curl_cpp : a verification development

Shallow embedding of `curl_cpp.hpp`, `curl_cpp.cpp` and `curl_cpp_errors.hpp`.

* C++ character buffers (`std::string`, the memory behind a `const char*`) are lists of
  characters; a consumer that reads a `const char*` as a C string sees `strview` of it.
* `size_t` values are natural numbers, reduced modulo `2 ^ 64` where the source computes.
* Thrown exceptions are the `Except.error` results of the embedded functions.
* libcurl is an external collaborator.  Its answers are the fields of `Engine`; the calls
  the library makes to it are recorded, in order, in the `log` of the `World`.
* Objects passed by reference are passed in and returned.
* Allocation failure is not modelled: inside the `noexcept` callbacks it would end the
  process, not raise.
* Which calls compile is modelled on descriptors of the deduced template arguments
  (`CppType`); the target of a call is an lvalue, as its `App_t&` parameter demands.
-/

namespace curl_cpp

/-! ## Characters, strings, sizes -/

/-- A character buffer: the content of a `std::string`, or the memory a `const char*`
points to, without its final terminator. -/
abbrev CppString := List Char

/-- The zero character that terminates a C string. -/
def NUL : Char := Char.ofNat 0

/-- The C string a `const char*` denotes: the characters before the first zero.  This is
what `std::string + const char*` and `std::string = const char*` read. -/
def strview (p : CppString) : CppString := p.takeWhile (fun c => c != NUL)

/-- Modulus of `size_t` arithmetic. -/
def SIZE_MOD : Nat := 2 ^ 64

/-- The result of `strlen` on the memory of a buffer. -/
def strlen (p : CppString) : Nat := (strview p).length

/-! ## curl_cpp_errors.hpp -/

/-- The two exception types of the library.  `Curl_error_http` derives from `Curl_error`
and adds `error_number`. -/
inductive CurlException where
  | Curl_error (what : CppString)
  | Curl_error_http (what : CppString) (error_number : Int)
  deriving DecidableEq, Repr

/-- The message of an exception (`what()`). -/
def CurlException.what : CurlException → CppString
  | .Curl_error m => m
  | .Curl_error_http m _ => m

/-- The text built by `Curl_error(const std::string& s, const char* url)`, which
`Curl_error_http` inherits: `s + ", url=" + url`. -/
def Curl_error_msg (s : CppString) (url : CppString) : CppString :=
  s ++ ", url=".data ++ strview url

/-- Outcome of a `void` function that may throw. -/
abbrev Res := Except CurlException Unit

/-! ## The engine (libcurl) as seen by the library -/

/-- A `CURL*`: `none` is the null pointer. -/
abbrev CURL := Option Nat

/-- `CURLE_OK`. -/
def CURLE_OK : Nat := 0

/-- Addresses of the two byte-delivery callbacks. -/
inductive WriteFn where
  | receive_string
  | receive_ostream
  deriving DecidableEq, Repr

/-- The options the library sets, with the value passed.  A pointer to character data is
recorded as the buffer it points to; `WRITEDATA` is always the address of the prepared
adapter state of the running call. -/
inductive CurlOpt where
  | URL (url : CppString)
  | FOLLOWLOCATION (v : Int)
  | WRITEFUNCTION (fn : WriteFn)
  | WRITEDATA
  | POSTFIELDS (data : CppString)
  | POSTFIELDSIZE (n : Nat)
  deriving DecidableEq, Repr

/-- One call into the engine, with its arguments and its answer. -/
inductive Event where
  | easy_init (r : CURL)
  | easy_cleanup (c : CURL)
  | easy_setopt (c : CURL) (o : CurlOpt)
  | easy_perform (c : CURL) (res : Nat)
  | easy_getinfo (c : CURL) (code : Int)
  deriving DecidableEq, Repr

/-- The answers of the engine during one call of the library. -/
structure Engine where
  /-- what `curl_easy_init` returns -/
  init : CURL
  /-- the chunks of the response body, in the order the engine delivers them -/
  chunks : List CppString
  /-- what `curl_easy_perform` returns, given whether the write callback aborted -/
  result : Bool → Nat
  /-- what `CURLINFO_RESPONSE_CODE` reports -/
  response_code : Int
  /-- the text of `curl_easy_strerror` -/
  strerror : Nat → CppString

/-- The engine calls made so far and the write callback registered in the session. -/
structure World where
  log : List Event
  writefunction : Option WriteFn
  writedata : Bool
  deriving DecidableEq, Repr

/-! ## Output streams -/

/-- What one insertion does to the stream, apart from the characters it puts through.  For
a stream that is not good the sentry of the insertion fails; the library may then leave
the state alone (`ok`), set failbit (`degrade`) or throw. -/
inductive WriteEffect where
  /-- everything offered is accepted and no state bit is set -/
  | ok
  /-- `accepted` characters go through, then failbit or badbit is set -/
  | degrade (accepted : Nat)
  /-- the insertion throws a `std::exception` whose `what()` is `what` -/
  | throw_std (what : CppString) (accepted : Nat)
  /-- the insertion throws something that is not a `std::exception` -/
  | throw_other (accepted : Nat)
  deriving DecidableEq, Repr

/-- A `std::ostream`: its failed state (`!out`, failbit or badbit), the characters it has
accepted, how its next insertions behave (an exhausted script means `ok`), its eofbit (a
stream that is also read from can carry it), and the formatting state a formatted
insertion of characters obeys: field width, fill character, and whether the adjustment is
`left`. -/
structure OStream where
  failed : Bool
  written : CppString
  script : List WriteEffect
  eof : Bool := false
  width : Nat := 0
  fill : Char := Char.ofNat 32
  left : Bool := false
  deriving DecidableEq, Repr

/-- What a `try` block around an insertion can catch. -/
inductive Thrown where
  | std_exception (what : CppString)
  | other
  deriving DecidableEq, Repr

/-- The character sequence a formatted insertion of `buffer` generates: `buffer` padded
with the fill character up to the field width, after the characters when the adjustment
is `left` and before them otherwise. -/
def OStream.formatted (os : OStream) (buffer : CppString) : CppString :=
  if os.left then buffer ++ List.replicate (os.width - buffer.length) os.fill
  else List.replicate (os.width - buffer.length) os.fill ++ buffer

/-- What the insertion offers to the stream buffer: the formatted sequence when the stream
is good, nothing when eofbit is set (the sentry fails and no output is attempted). -/
def OStream.offered (os : OStream) (buffer : CppString) : CppString :=
  if os.eof then [] else os.formatted buffer

/-- The field width after the insertion: a completed insertion resets it to 0, a failed
sentry leaves it. -/
def OStream.width_after (os : OStream) : Nat :=
  if os.eof then os.width else 0

/-- The formatted insertion `out << buffer` of a `std::string`.  A failed stream accepts
nothing. -/
def OStream.insert (os : OStream) (buffer : CppString) : OStream × Option Thrown :=
  if os.failed then (os, none)
  else
    match os.script with
    | [] =>
        ({ os with written := os.written ++ os.offered buffer, width := os.width_after },
          none)
    | .ok :: rest =>
        ({ os with written := os.written ++ os.offered buffer, script := rest,
                   width := os.width_after }, none)
    | .degrade k :: rest =>
        ({ os with failed := true, written := os.written ++ (os.offered buffer).take k,
                   script := rest, width := os.width_after }, none)
    | .throw_std what k :: rest =>
        ({ os with failed := true, written := os.written ++ (os.offered buffer).take k,
                   script := rest },
          some (.std_exception what))
    | .throw_other k :: rest =>
        ({ os with failed := true, written := os.written ++ (os.offered buffer).take k,
                   script := rest },
          some .other)

/-! ## Engine calls -/

/-- `curl_easy_init()`: a fresh session has no write callback registered. -/
def curl_easy_init (E : Engine) (w : World) : CURL × World :=
  match E.init with
  | none => (none, { w with log := w.log ++ [.easy_init none] })
  | some s =>
      (some s, { log := w.log ++ [.easy_init (some s)], writefunction := none,
                 writedata := false })

/-- `curl_easy_cleanup(curl)`. -/
def curl_easy_cleanup (w : World) (curl : CURL) : World :=
  { w with log := w.log ++ [.easy_cleanup curl] }

/-- `curl_easy_setopt(curl, option, value)`. -/
def curl_easy_setopt (w : World) (curl : CURL) (o : CurlOpt) : World :=
  match o with
  | .WRITEFUNCTION fn =>
      { w with log := w.log ++ [.easy_setopt curl o], writefunction := some fn }
  | .WRITEDATA => { w with log := w.log ++ [.easy_setopt curl o], writedata := true }
  | _ => { w with log := w.log ++ [.easy_setopt curl o] }

/-- `curl_easy_getinfo(curl, CURLINFO_RESPONSE_CODE, &http_code)`. -/
def curl_easy_getinfo (E : Engine) (w : World) (curl : CURL) : Int × World :=
  (E.response_code, { w with log := w.log ++ [.easy_getinfo curl E.response_code] })

/-! ## curl_cpp.cpp : error throwing helpers -/

/-- `curl_res_throw(res, prefix, url)`. -/
def curl_res_throw (E : Engine) (res : Nat) (pfx : CppString) (url : CppString) : Res :=
  if res ≠ CURLE_OK then
    let err := strview (E.strerror res)
    .error (.Curl_error (Curl_error_msg (pfx ++ ", message=".data ++ err) url))
  else .ok ()

/-- `std::to_string` of a `long`. -/
def to_string (n : Int) : CppString := (toString n).data

/-- `curl_http_throw(curl, prefix, url)`. -/
def curl_http_throw (E : Engine) (w : World) (curl : CURL) (pfx : CppString)
    (url : CppString) : Res × World :=
  let (http_code, w) := curl_easy_getinfo E w curl
  if http_code ≠ 200 then
    (.error (.Curl_error_http
      (Curl_error_msg (pfx ++ ", http_error=".data ++ to_string http_code) url) http_code), w)
  else (.ok (), w)

/-- `curl_throw(curl, res, prefix, url)`. -/
def curl_throw (E : Engine) (w : World) (curl : CURL) (res : Nat) (pfx : CppString)
    (url : CppString) : Res × World :=
  match curl_res_throw E res pfx url with
  | .error e => (.error e, w)
  | .ok () => curl_http_throw E w curl pfx url

/-! ## Curl_handle -/

/-- `struct Curl_handle`: the owned session pointer. -/
structure Curl_handle where
  curl : CURL
  deriving DecidableEq, Repr

/-- `Curl_handle::Curl_handle()`. -/
def Curl_handle.ctor (E : Engine) (w : World) : Except CurlException Curl_handle × World :=
  let (curl, w) := curl_easy_init E w
  match curl with
  | none => (.error (.Curl_error "ERROR in curl : cannot initialize curl".data), w)
  | some s => (.ok { curl := some s }, w)

/-- `Curl_handle::~Curl_handle()`. -/
def Curl_handle.dtor (h : Curl_handle) (w : World) : World :=
  curl_easy_cleanup w h.curl

/-- `Curl_handle(Curl_handle&&) = default`: memberwise move.  Moving a raw pointer copies
it.  Returns the new handle and the moved-from one. -/
def Curl_handle.move_ctor (src : Curl_handle) : Curl_handle × Curl_handle :=
  ({ curl := src.curl }, src)

/-! ## Receive in a std::string -/

/-- `Curl_receive_t<std::string>::Curl_wrap_string`; `out` stands for the referenced
string. -/
structure Curl_wrap_string where
  out : CppString
  deriving DecidableEq, Repr

/-- `Curl_receive_t<std::string>::prepare`. -/
def Curl_receive_string.prepare (w : CppString) : Curl_wrap_string := { out := w }

/-- `Curl_receive_t<std::string>::receive(ptr, size, nmemb, stream)`: the updated wrapper
and the returned count.  `ptr` is the memory of the chunk. -/
def Curl_receive_string.receive (ptr : CppString) (size nmemb : Nat)
    (w : Curl_wrap_string) : Curl_wrap_string × Nat :=
  ({ out := w.out ++ ptr.take nmemb }, (size * nmemb) % SIZE_MOD)

/-! ## Receive in a std::ostream -/

/-- `Curl_receive_t<std::ostream>::Curl_wrap_ostream`. -/
structure Curl_wrap_ostream where
  out : OStream
  err : CppString
  deriving DecidableEq, Repr

/-- `Curl_receive_t<std::ostream>::prepare`. -/
def Curl_receive_ostream.prepare (w : OStream) : Curl_wrap_ostream := { out := w, err := [] }

/-- The value `(size*nmemb)+1` in `size_t`. -/
def abort_count (size nmemb : Nat) : Nat := ((size * nmemb) % SIZE_MOD + 1) % SIZE_MOD

/-- `Curl_receive_t<std::ostream>::receive(ptr, size, nmemb, stream)`. -/
def Curl_receive_ostream.receive (ptr : CppString) (size nmemb : Nat)
    (here : Curl_wrap_ostream) : Curl_wrap_ostream × Nat :=
  if here.out.failed then
    ({ here with err := "invalid input ostream".data }, abort_count size nmemb)
  else
    let buffer := ptr.take nmemb
    match here.out.insert buffer with
    | (out, some (.std_exception what)) =>
        ({ out := out, err := strview what }, abort_count size nmemb)
    | (out, some .other) =>
        ({ out := out, err := "cannot write to ostream".data }, abort_count size nmemb)
    | (out, none) =>
        if out.failed then
          ({ out := out, err := "invalid ostream after write".data }, abort_count size nmemb)
        else ({ here with out := out }, (size * nmemb) % SIZE_MOD)

/-! ## The blocking transfer -/

/-- The object behind the `void*` given as `CURLOPT_WRITEDATA`: the prepared adapter state
`p` of the running call, of either `prepared_type`. -/
inductive Prepared where
  | wrap_string (p : Curl_wrap_string)
  | wrap_ostream (p : Curl_wrap_ostream)
  deriving DecidableEq, Repr

/-- The engine calling a registered callback on the registered user data.  Each callback
casts the `void*` back to its own wrapper type; the library always registers a callback
together with the wrapper prepared by the same `Curl_receive_t<T>`, and for the other
pairing (undefined in C++) the model leaves the object alone and reports an abort. -/
def WriteFn.call (fn : WriteFn) (ptr : CppString) (size nmemb : Nat) (stream : Prepared) :
    Prepared × Nat :=
  match fn, stream with
  | .receive_string, .wrap_string p =>
      let r := Curl_receive_string.receive ptr size nmemb p
      (.wrap_string r.1, r.2)
  | .receive_ostream, .wrap_ostream p =>
      let r := Curl_receive_ostream.receive ptr size nmemb p
      (.wrap_ostream r.1, r.2)
  | _, _ => (stream, abort_count size nmemb)

/-- The engine delivering the body: one callback invocation per chunk, with element size
1 and the chunk length as count, until a callback returns something else than the chunk
length.  Returns the user data and whether the delivery was aborted. -/
def deliver (fn : WriteFn) : List CppString → Prepared → Prepared × Bool
  | [], p => (p, false)
  | c :: cs, p =>
      let r := fn.call c 1 c.length p
      if r.2 = c.length then deliver fn cs r.1 else (r.1, true)

/-- `curl_easy_perform(curl)`.  `mem` is the object `CURLOPT_WRITEDATA` points to, if the
running call has one.  Without a registered callback the body goes to the default sink of
the engine. -/
def curl_easy_perform (E : Engine) (w : World) (curl : CURL) (mem : Option Prepared) :
    Nat × World × Option Prepared :=
  let d : Option Prepared × Bool :=
    match w.writefunction, w.writedata, mem with
    | some fn, true, some p =>
        let r := deliver fn E.chunks p
        (some r.1, r.2)
    | _, _, _ => (mem, false)
  let res := E.result d.2
  (res, { w with log := w.log ++ [.easy_perform curl res] }, d.1)

/-! ## finish of the receive adapters -/

/-- `Curl_receive_t<std::string>::finish(curl, url, append_here, p)`; the last component
is the memory of `p` after the call. -/
def Curl_receive_string.finish (E : Engine) (w : World) (curl : CURL) (url : CppString)
    (p : Curl_wrap_string) : Res × World × Option Prepared :=
  let (res, w, mem) := curl_easy_perform E w curl (some (.wrap_string p))
  let (r, w) := curl_throw E w curl res "ERROR in curl get to string".data url
  (r, w, mem)

/-- `Curl_receive_t<std::ostream>::finish(curl, url, append_here, p)`. -/
def Curl_receive_ostream.finish (E : Engine) (w : World) (curl : CURL) (url : CppString)
    (p : Curl_wrap_ostream) : Res × World × Option Prepared :=
  if p.err ≠ [] then
    (.error (.Curl_error
      ("ERROR in curl get to ostream, message=".data ++ p.err ++ ", url=".data ++ strview url)),
     w, some (.wrap_ostream p))
  else
    let (res, w, mem) := curl_easy_perform E w curl (some (.wrap_ostream p))
    let (r, w) := curl_throw E w curl res "ERROR in curl get to ostream".data url
    (r, w, mem)

/-! ## curl_get -/

/-- `details::curl_get_impl(curl, url, append_here, fn)`; `append_here` is the address of
the prepared state. -/
def details.curl_get_impl (w : World) (curl : CURL) (url : CppString) (fn : WriteFn) : World :=
  let w := curl_easy_setopt w curl (.URL url)
  let w := curl_easy_setopt w curl (.FOLLOWLOCATION 1)
  let w := curl_easy_setopt w curl (.WRITEFUNCTION fn)
  curl_easy_setopt w curl .WRITEDATA

/-- A receive target of a type `T` with `Curl_receive_t<T>::value` true: a `std::string`,
or a `std::ostream` (types derived from `std::ostream` inherit its adapter). -/
inductive Receive_t where
  | string (out : CppString)
  | ostream (out : OStream)
  deriving DecidableEq, Repr

/-- `Curl_receive_t<T>::prepare`, by the type of the target. -/
def Curl_receive_t.prepare : Receive_t → Prepared
  | .string out => .wrap_string (Curl_receive_string.prepare out)
  | .ostream out => .wrap_ostream (Curl_receive_ostream.prepare out)

/-- The address `Curl_receive_t<T>::receive`, by the type of the target. -/
def Curl_receive_t.receive : Receive_t → WriteFn
  | .string _ => .receive_string
  | .ostream _ => .receive_ostream

/-- `Curl_receive_t<T>::finish`, by the type of the prepared state. -/
def Curl_receive_t.finish (E : Engine) (w : World) (curl : CURL) (url : CppString) :
    Prepared → Res × World × Option Prepared
  | .wrap_string p => Curl_receive_string.finish E w curl url p
  | .wrap_ostream p => Curl_receive_ostream.finish E w curl url p

/-- The caller's object that a prepared state refers to. -/
def Prepared.target : Prepared → Receive_t
  | .wrap_string p => .string p.out
  | .wrap_ostream p => .ostream p.out

/-- The error slot of a prepared state (the string wrapper has none). -/
def Prepared.err : Prepared → CppString
  | .wrap_string _ => []
  | .wrap_ostream p => p.err

/-- `details::curl_get_t<T>(curl, url, append_here)`: the outcome, the engine afterwards
and the target afterwards. -/
def details.curl_get_t (E : Engine) (w : World) (curl : CURL) (url : CppString)
    (append_here : Receive_t) : Res × World × Receive_t :=
  let p := Curl_receive_t.prepare append_here
  let w := details.curl_get_impl w curl url (Curl_receive_t.receive append_here)
  let (r, w, mem) := Curl_receive_t.finish E w curl url p
  (r, w, (mem.getD p).target)

/-- A URL of a type `T` with `To_cstring_t<T>::value` true. -/
inductive Url_t where
  | string (s : CppString)
  | cstr (s : CppString)
  deriving DecidableEq, Repr

/-- `to_cstring(t)`: `s.c_str()` for a `std::string`, the pointer itself otherwise. -/
def to_cstring : Url_t → CppString
  | .string s => s
  | .cstr s => s

/-- `curl_get(Curl_handle& h, const Url_t& url, App_t& append_here)`. -/
def curl_get_h (E : Engine) (w : World) (h : Curl_handle) (url : Url_t)
    (append_here : Receive_t) : Res × World × Receive_t :=
  let u := to_cstring url
  details.curl_get_t E w h.curl u append_here

/-- `curl_get(const Url_t& url, App_t& append_here)`: the local handle is destroyed when
the scope is left, by return or by exception; a throwing constructor leaves no handle. -/
def curl_get (E : Engine) (w : World) (url : Url_t) (append_here : Receive_t) :
    Res × World × Receive_t :=
  match Curl_handle.ctor E w with
  | (.error e, w) => (.error e, w, append_here)
  | (.ok h, w) =>
      let u := to_cstring url
      let (r, w, t) := details.curl_get_t E w h.curl u append_here
      (r, h.dtor w, t)

/-! ## curl_post -/

/-- `Curl_send_t<std::string>::send(curl, url, data)`. -/
def Curl_send_string.send (w : World) (curl : CURL) (url : CppString) (data : CppString) :
    World :=
  let w := curl_easy_setopt w curl (.URL url)
  let w := curl_easy_setopt w curl (.POSTFIELDS data)
  curl_easy_setopt w curl (.POSTFIELDSIZE data.length)

/-- `Curl_send_t<std::string>::finish(curl, url, data)`; `mem` is the user data a
registered write callback works on. -/
def Curl_send_string.finish (E : Engine) (w : World) (curl : CURL) (url : CppString)
    (mem : Option Prepared) : Res × World × Option Prepared :=
  let (res, w, mem) := curl_easy_perform E w curl mem
  let (r, w) := curl_throw E w curl res "ERROR in curl post string".data url
  (r, w, mem)

/-- `Curl_send_t<const char*>::send(curl, url, data)`. -/
def Curl_send_cstr.send (w : World) (curl : CURL) (url : CppString) (data : CppString) :
    World :=
  let w := curl_easy_setopt w curl (.URL url)
  curl_easy_setopt w curl (.POSTFIELDS data)

/-- `Curl_send_t<const char*>::finish(curl, url, data)`. -/
def Curl_send_cstr.finish (E : Engine) (w : World) (curl : CURL) (url : CppString)
    (mem : Option Prepared) : Res × World × Option Prepared :=
  let (res, w, mem) := curl_easy_perform E w curl mem
  let (r, w) := curl_throw E w curl res "ERROR in curl post const char*".data url
  (r, w, mem)

/-- A payload of a type `T` with `Curl_send_t<T>::value` true: a `std::string`, or a
`const char*` (`char[N]` inherits the adapter of `const char*`). -/
inductive Send_t where
  | string (d : CppString)
  | cstr (d : CppString)
  deriving DecidableEq, Repr

/-- `Curl_send_t<T>::send`, by the type of the payload. -/
def Curl_send_t.send (w : World) (curl : CURL) (url : CppString) : Send_t → World
  | .string d => Curl_send_string.send w curl url d
  | .cstr d => Curl_send_cstr.send w curl url d

/-- `Curl_send_t<T>::finish`, by the type of the payload. -/
def Curl_send_t.finish (E : Engine) (w : World) (curl : CURL) (url : CppString)
    (send_me : Send_t) (mem : Option Prepared) : Res × World × Option Prepared :=
  match send_me with
  | .string _ => Curl_send_string.finish E w curl url mem
  | .cstr _ => Curl_send_cstr.finish E w curl url mem

/-- The message head that `Curl_send_t<T>::finish` hands to `curl_throw`. -/
def Curl_send_t.pfx : Send_t → CppString
  | .string _ => "ERROR in curl post string".data
  | .cstr _ => "ERROR in curl post const char*".data

/-- `details::curl_post_t<T>(curl, url, send_me)`. -/
def details.curl_post_t (E : Engine) (w : World) (curl : CURL) (url : CppString)
    (send_me : Send_t) : Res × World :=
  let w := Curl_send_t.send w curl url send_me
  let (r, w, _) := Curl_send_t.finish E w curl url send_me none
  (r, w)

/-- `curl_post(const Url_t& url, const Send_t& data)`. -/
def curl_post (E : Engine) (w : World) (url : Url_t) (data : Send_t) : Res × World :=
  match Curl_handle.ctor E w with
  | (.error e, w) => (.error e, w)
  | (.ok h, w) =>
      let u := to_cstring url
      let (r, w) := details.curl_post_t E w h.curl u data
      (r, h.dtor w)

/-- `curl_post(Curl_handle& h, const Url_t& url, const Send_t& data)`. -/
def curl_post_h (E : Engine) (w : World) (h : Curl_handle) (url : Url_t) (data : Send_t) :
    Res × World :=
  let u := to_cstring url
  details.curl_post_t E w h.curl u data

/-! ## curl_post_get -/

/-- `details::curl_post_get_t<Send_t, Receive_t>(curl, url, send_me, append_here)`. -/
def details.curl_post_get_t (E : Engine) (w : World) (curl : CURL) (url : CppString)
    (send_me : Send_t) (append_here : Receive_t) : Res × World × Receive_t :=
  let w := Curl_send_t.send w curl url send_me
  let p := Curl_receive_t.prepare append_here
  let w := details.curl_get_impl w curl url (Curl_receive_t.receive append_here)
  let (r, w, mem) := Curl_send_t.finish E w curl url send_me (some p)
  (r, w, (mem.getD p).target)

/-- `curl_post_get(const Url_t& url, const Send_t& data, Receive_t& receive)`. -/
def curl_post_get (E : Engine) (w : World) (url : Url_t) (data : Send_t)
    (receive : Receive_t) : Res × World × Receive_t :=
  match Curl_handle.ctor E w with
  | (.error e, w) => (.error e, w, receive)
  | (.ok h, w) =>
      let u := to_cstring url
      let (r, w, t) := details.curl_post_get_t E w h.curl u data receive
      (r, h.dtor w, t)

/-- `curl_post_get(Curl_handle& h, const Url_t& url, const Send_t& data, Receive_t&
receive)`. -/
def curl_post_get_h (E : Engine) (w : World) (h : Curl_handle) (url : Url_t) (data : Send_t)
    (receive : Receive_t) : Res × World × Receive_t :=
  let u := to_cstring url
  details.curl_post_get_t E w h.curl u data receive

/-! ## Observations on the log -/

/-- Sessions created: successful `curl_easy_init` calls. -/
def created (log : List Event) : Nat :=
  log.countP (fun e => match e with | .easy_init (some _) => true | _ => false)

/-- Sessions released: `curl_easy_cleanup` calls on a session. -/
def released (log : List Event) : Nat :=
  log.countP (fun e => match e with | .easy_cleanup (some _) => true | _ => false)

/-- How often session `s` was released. -/
def released_of (s : Nat) (log : List Event) : Nat :=
  log.count (.easy_cleanup (some s))

/-- Blocking transfers: `curl_easy_perform` calls. -/
def performed (log : List Event) : Nat :=
  log.countP (fun e => match e with | .easy_perform _ _ => true | _ => false)

/-- Status queries: `curl_easy_getinfo` calls. -/
def status_queries (log : List Event) : Nat :=
  log.countP (fun e => match e with | .easy_getinfo _ _ => true | _ => false)

/-! ## Capability traits -/

/-- The C++ types the traits are asked about, as template arguments. -/
inductive CppType where
  | std_string
  | const_char_ptr
  | char_array (N : Nat)
  | std_ostream
  /-- a class with `base` among its bases; `accessible` says whether `base` is a public and
  unambiguous base, so that an lvalue of the class converts to an lvalue of `base` -/
  | derived (name : String) (base : CppType) (accessible : Bool)
  /-- the const- and/or volatile-qualified version of a type -/
  | cv (T : CppType)
  /-- any type that is none of the above -/
  | other (name : String)
  deriving DecidableEq, Repr

/-- `std::remove_cv`: the type without its cv-qualification. -/
def remove_cv : CppType → CppType
  | .cv T => remove_cv T
  | T => T

/-- Whether an unqualified class is `std::ostream` or reaches it through its bases,
whatever their access. -/
def has_ostream_base : CppType → Bool
  | .std_ostream => true
  | .derived _ base _ => has_ostream_base base
  | _ => false

/-- `std::is_base_of<std::ostream, T>::value`: it ignores the cv-qualification of `T` and
the access of the base. -/
def is_base_of_ostream (T : CppType) : Bool := has_ostream_base (remove_cv T)

/-- `std::is_same<std::ostream, T>::value`. -/
def is_same_ostream : CppType → Bool
  | .std_ostream => true
  | _ => false

/-- `To_cstring_t<T>::value`: the primary template says false, the specialisations for
`std::string`, `const char*` and `char[N]` say true. -/
def To_cstring_t.value : CppType → Bool
  | .std_string => true
  | .const_char_ptr => true
  | .char_array _ => true
  | _ => false

/-- `Curl_send_t<T>::value`: false in the primary template, true for `std::string` and
`const char*`, and `Curl_send_t<char[N]>` inherits from `Curl_send_t<const char*>`. -/
def Curl_send_t.value : CppType → Bool
  | .std_string => true
  | .const_char_ptr => true
  | .char_array _ => true
  | _ => false

/-- `Curl_receive_t<T>::value`: true for `std::string` and `std::ostream`; the partial
specialisation enabled by `is_base_of<std::ostream,T> and not is_same<std::ostream,T>`
inherits from `Curl_receive_t<std::ostream>`; false in the primary template. -/
def Curl_receive_t.value : CppType → Bool
  | .std_string => true
  | .std_ostream => true
  | T => if is_base_of_ostream T && !is_same_ostream T then true else false

/-- Whether an lvalue of type `T` binds to a `std::ostream&` parameter: `T` is
`std::ostream`, or an unqualified class that reaches it through public, unambiguous
bases.  A cv-qualified lvalue does not bind to a reference to non-const. -/
def binds_to_ostream_ref : CppType → Bool
  | .std_ostream => true
  | .derived _ base accessible => accessible && binds_to_ostream_ref base
  | _ => false

/-- Whether the target, an lvalue of type `T`, binds to the `written_type&` parameter of
`Curl_receive_t<T>::prepare` and `finish`: `written_type` is `std::string` in the
specialisation for `std::string` and `std::ostream` in the one for `std::ostream`, which
the partial specialisation inherits. -/
def Curl_receive_t.binds : CppType → Bool
  | .std_string => true
  | T => binds_to_ostream_ref T

/-- Whether a `const T&` payload converts to the parameter of `Curl_send_t<T>::send` and
`finish`: `const std::string&` for `std::string`, `const char*` for `const char*` and for
`char[N]`, whose array decays. -/
def Curl_send_t.binds : CppType → Bool
  | .std_string => true
  | .const_char_ptr => true
  | .char_array _ => true
  | _ => false

/-- Whether a `const T&` URL converts to the parameter of `To_cstring_t<T>::run`. -/
def To_cstring_t.binds : CppType → Bool
  | .std_string => true
  | .const_char_ptr => true
  | .char_array _ => true
  | _ => false

/-- Whether `to_cstring(url)` compiles for a URL of type `T`: its `enable_if` condition
and the call of `run`. -/
def to_cstring.compiles (T : CppType) : Bool :=
  To_cstring_t.value T && To_cstring_t.binds T

/-- Whether `details::curl_get_t(h, u, append_here)` compiles for a target of type `T`:
its `enable_if` condition and the calls of `prepare` and `finish` in its body. -/
def details.curl_get_t.compiles (T : CppType) : Bool :=
  Curl_receive_t.value T && Curl_receive_t.binds T

/-- Whether `details::curl_post_t(h, u, data)` compiles for a payload of type `T`. -/
def details.curl_post_t.compiles (T : CppType) : Bool :=
  Curl_send_t.value T && Curl_send_t.binds T

/-- Whether `details::curl_post_get_t(h, u, data, receive)` compiles. -/
def details.curl_post_get_t.compiles (Send Receive : CppType) : Bool :=
  Curl_send_t.value Send && Curl_receive_t.value Receive
    && Curl_send_t.binds Send && Curl_receive_t.binds Receive

/-- The `enable_if` condition of both `curl_get` overloads. -/
def curl_get.enabled (Url App : CppType) : Bool :=
  To_cstring_t.value Url && Curl_receive_t.value App

/-- The `enable_if` condition of both `curl_post` overloads. -/
def curl_post.enabled (Url Send : CppType) : Bool :=
  To_cstring_t.value Url && Curl_send_t.value Send

/-- The `enable_if` condition of both `curl_post_get` overloads. -/
def curl_post_get.enabled (Url Send Receive : CppType) : Bool :=
  To_cstring_t.value Url && Curl_send_t.value Send && Curl_receive_t.value Receive

/-- Whether a call of `curl_get` on an lvalue target, with the deduced types `Url` and
`App`, compiles: the overload is enabled and the two calls of its body compile. -/
def curl_get.accepted (Url App : CppType) : Bool :=
  curl_get.enabled Url App && to_cstring.compiles Url && details.curl_get_t.compiles App

/-- Whether a call of `curl_post` with the deduced types `Url` and `Send` compiles. -/
def curl_post.accepted (Url Send : CppType) : Bool :=
  curl_post.enabled Url Send && to_cstring.compiles Url && details.curl_post_t.compiles Send

/-- Whether a call of `curl_post_get` with the deduced types compiles. -/
def curl_post_get.accepted (Url Send Receive : CppType) : Bool :=
  curl_post_get.enabled Url Send Receive && to_cstring.compiles Url
    && details.curl_post_get_t.compiles Send Receive

/-! ## Helpers for the statements -/

/-- The engine invoking `Curl_receive_t<std::string>::receive` once per chunk, in order,
with element size 1: the wrapper afterwards and the counts returned. -/
def receive_all (chunks : List CppString) (w : Curl_wrap_string) :
    Curl_wrap_string × List Nat :=
  chunks.foldl
    (fun acc c =>
      let r := Curl_receive_string.receive c 1 c.length acc.1
      (r.1, acc.2 ++ [r.2]))
    (w, [])

/-- `CURLE_WRITE_ERROR`. -/
def CURLE_WRITE_ERROR : Nat := 23

/-- An engine that answers like libcurl talking to a reachable server: the session is
created, a callback abort makes the transfer fail with `CURLE_WRITE_ERROR`, otherwise the
transfer succeeds. -/
def sample_engine (chunks : List CppString) (code : Int) : Engine :=
  { init := some 1
    chunks := chunks
    result := fun aborted => if aborted then CURLE_WRITE_ERROR else CURLE_OK
    response_code := code
    strerror := fun n =>
      if n = CURLE_WRITE_ERROR then "Failed writing received data to disk/application".data
      else "Error".data }

/-- An engine that cannot create a session. -/
def no_session_engine : Engine :=
  { sample_engine [] 200 with init := none }

/-- The payload of five characters `a b \0 c d`. -/
def payload_with_zero : CppString := "ab".data ++ [NUL] ++ "cd".data

/-- A stream that is already in a failed state. -/
def failed_stream : OStream := { failed := true, written := [], script := [] }

/-- The world before any call. -/
def World.start : World := { log := [], writefunction := none, writedata := false }

/-- The four options `details::curl_get_impl` sets, in order. -/
def install_events (curl : CURL) (url : CppString) (fn : WriteFn) : List Event :=
  [.easy_setopt curl (.URL url), .easy_setopt curl (.FOLLOWLOCATION 1),
   .easy_setopt curl (.WRITEFUNCTION fn), .easy_setopt curl .WRITEDATA]

/-- The options `Curl_send_t<T>::send` sets, in order. -/
def send_events (curl : CURL) (url : CppString) : Send_t → List Event
  | .string d => [.easy_setopt curl (.URL url), .easy_setopt curl (.POSTFIELDS d),
                  .easy_setopt curl (.POSTFIELDSIZE d.length)]
  | .cstr d => [.easy_setopt curl (.URL url), .easy_setopt curl (.POSTFIELDS d)]

/-- The result code of the one transfer in which the engine delivers its chunks to the
callback `fn` working on the user data `p`. -/
def transfer_result (E : Engine) (fn : WriteFn) (p : Prepared) : Nat :=
  E.result (deliver fn E.chunks p).2

/-- The engine calls `curl_throw` makes for a result code. -/
def status_events (E : Engine) (curl : CURL) (res : Nat) : List Event :=
  if res = CURLE_OK then [.easy_getinfo curl E.response_code] else []

/-- The outcome of `curl_throw` for a result code, a message head and a URL. -/
def translation (E : Engine) (res : Nat) (pfx url : CppString) : Res :=
  (curl_throw E World.start none res pfx url).1

/-- The message head that `Curl_receive_t<T>::finish` hands to `curl_throw`. -/
def Curl_receive_t.pfx : Receive_t → CppString
  | .string _ => "ERROR in curl get to string".data
  | .ostream _ => "ERROR in curl get to ostream".data

/-- The log of a handle-less call: the creation of the session, then either nothing more
(creation failed) or the calls of the body followed by one release of that session. -/
def scoped_log (E : Engine) (before body : List Event) : List Event :=
  match E.init with
  | none => before ++ [.easy_init none]
  | some s => before ++ [.easy_init (some s)] ++ body ++ [.easy_cleanup (some s)]

/-- The engine calls of `details::curl_get_t`: the four options, one transfer, and the
status query when the transfer succeeded. -/
def get_events (E : Engine) (curl : CURL) (url : CppString) (t : Receive_t) : List Event :=
  install_events curl url (Curl_receive_t.receive t)
    ++ [.easy_perform curl
          (transfer_result E (Curl_receive_t.receive t) (Curl_receive_t.prepare t))]
    ++ status_events E curl
          (transfer_result E (Curl_receive_t.receive t) (Curl_receive_t.prepare t))

/-- The engine calls of `details::curl_post_t`. -/
def post_events (E : Engine) (curl : CURL) (url : CppString) (send_me : Send_t) :
    List Event :=
  send_events curl url send_me ++ [.easy_perform curl (E.result false)]
    ++ status_events E curl (E.result false)

/-- The engine calls of `details::curl_post_get_t`. -/
def post_get_events (E : Engine) (curl : CURL) (url : CppString) (send_me : Send_t)
    (t : Receive_t) : List Event :=
  send_events curl url send_me ++ get_events E curl url t

/-- A class derived from `std::ostream`: a class with `std::ostream` as a base, or with a
base that is itself derived from `std::ostream`, whatever the access. -/
inductive DerivedFromOstream : CppType → Prop where
  | direct (name : String) (accessible : Bool) :
      DerivedFromOstream (.derived name .std_ostream accessible)
  | step (name : String) (base : CppType) (accessible : Bool) :
      DerivedFromOstream base → DerivedFromOstream (.derived name base accessible)

/-- A class publicly and unambiguously derived from `std::ostream`, directly or through
classes that are. -/
inductive PubliclyDerivedFromOstream : CppType → Prop where
  | direct (name : String) : PubliclyDerivedFromOstream (.derived name .std_ostream true)
  | step (name : String) (base : CppType) :
      PubliclyDerivedFromOstream base → PubliclyDerivedFromOstream (.derived name base true)

/-- One of the three URL and payload types: `std::string`, `const char*`, `char[N]`. -/
def StringLike (T : CppType) : Prop :=
  T = .std_string ∨ T = .const_char_ptr ∨ ∃ N, T = .char_array N

/-- A class privately derived from `std::ostream`. -/
def PrivStream : CppType := .derived "PrivStream" .std_ostream false

/-- A class publicly derived from `std::ostream`, such as `std::ofstream`. -/
def PubStream : CppType := .derived "PubStream" .std_ostream true

/-- The text every two-argument `Curl_error` ends with: `", url="` and the URL as a C
string. -/
def url_part (url : CppString) : CppString := ", url=".data ++ strview url

/-- The exception of a failed `Curl_handle` construction. -/
def init_error : CurlException := .Curl_error "ERROR in curl : cannot initialize curl".data

/-- An engine whose transfers fail to connect (`CURLE_COULDNT_CONNECT`). -/
def unreachable_engine : Engine :=
  { sample_engine [] 0 with result := fun _ => 7 }

/-- A `std::string` URL of three characters `a \0 b`. -/
def url_with_zero : CppString := "a".data ++ [NUL] ++ "b".data

/-- The result code of the one transfer of a call receiving into target `t`: the engine
delivers to `Curl_receive_t<T>::receive` on the state prepared from `t`. -/
def receive_result (E : Engine) (t : Receive_t) : Nat :=
  transfer_result E (Curl_receive_t.receive t) (Curl_receive_t.prepare t)

/-- The target after the engine delivered its chunks to the adapter prepared from `t`. -/
def received (E : Engine) (t : Receive_t) : Receive_t :=
  (deliver (Curl_receive_t.receive t) E.chunks (Curl_receive_t.prepare t)).1.target

/-- A healthy stream that already holds `x` and accepts whatever comes. -/
def good_stream : OStream := { failed := false, written := "x".data, script := [] }

/-- What a caller can tell about an outcome apart from the message: nothing raised, a
base `Curl_error` (no status code), or a `Curl_error_http` with its `error_number`. -/
def outcome_kind : Res → Option (Option Int)
  | .ok _ => none
  | .error (.Curl_error _) => some none
  | .error (.Curl_error_http _ n) => some (some n)

/-- The message head of `Curl_receive_t<std::string>::finish`. -/
def string_pfx : CppString := "ERROR in curl get to string".data

/-- The message head of `Curl_receive_t<std::ostream>::finish`. -/
def ostream_pfx : CppString := "ERROR in curl get to ostream".data

/-- A prepared stream state whose error slot holds `disk full`. -/
def recorded_state : Curl_wrap_ostream := { out := failed_stream, err := "disk full".data }

/-- Sessions a handle-less call creates: one if the engine hands out a session, none
otherwise. -/
def sessions_of (E : Engine) : Nat :=
  match E.init with
  | none => 0
  | some _ => 1

/-! ## Theorems -/

theorem receive_all_fold (chunks : List CppString)
    (h : ∀ c ∈ chunks, c.length < SIZE_MOD) (w : Curl_wrap_string) (acc : List Nat) :
    chunks.foldl
      (fun acc c =>
        let r := Curl_receive_string.receive c 1 c.length acc.1
        (r.1, acc.2 ++ [r.2]))
      (w, acc)
      = ({ out := w.out ++ chunks.flatten }, acc ++ chunks.map List.length) := by
  induction chunks generalizing w acc with
  | nil => simp
  | cons c cs ih =>
    have hc : c.length < SIZE_MOD := h c (List.mem_cons_self _ _)
    have hcs : ∀ d ∈ cs, d.length < SIZE_MOD := fun d hd => h d (List.mem_cons_of_mem _ hd)
    simp only [List.foldl_cons]
    rw [ih hcs]
    simp [Curl_receive_string.receive, Nat.mod_eq_of_lt hc, List.append_assoc]

theorem deliver_string (chunks : List CppString)
    (h : ∀ c ∈ chunks, c.length < SIZE_MOD) (w : Curl_wrap_string) :
    deliver .receive_string chunks (.wrap_string w)
      = (.wrap_string { out := w.out ++ chunks.flatten }, false) := by
  induction chunks generalizing w with
  | nil => simp [deliver]
  | cons c cs ih =>
    have hc : c.length < SIZE_MOD := h c (List.mem_cons_self _ _)
    have hcs : ∀ d ∈ cs, d.length < SIZE_MOD := fun d hd => h d (List.mem_cons_of_mem _ hd)
    simp [deliver, WriteFn.call, Curl_receive_string.receive, Nat.mod_eq_of_lt hc, ih hcs,
      List.append_assoc]

/-- C1: invoking `Curl_receive_t<std::string>::receive` once per chunk, in order, with
element size 1 leaves the target equal to its initial content followed by all chunks, and
every invocation returns the length of its chunk; the delivery loop of the engine is
therefore never aborted. -/
theorem C1_receive_string_reassembles (b0 : CppString) (chunks : List CppString)
    (h : ∀ c ∈ chunks, c.length < SIZE_MOD) :
    receive_all chunks (Curl_receive_string.prepare b0)
        = ({ out := b0 ++ chunks.flatten }, chunks.map List.length)
      ∧ deliver .receive_string chunks (.wrap_string (Curl_receive_string.prepare b0))
        = (.wrap_string { out := b0 ++ chunks.flatten }, false) := by
  refine ⟨?_, ?_⟩
  · have := receive_all_fold chunks h (Curl_receive_string.prepare b0) []
    simpa [receive_all, Curl_receive_string.prepare] using this
  · simpa [Curl_receive_string.prepare] using
      deliver_string chunks h (Curl_receive_string.prepare b0)

/-- C1 at a concrete delivery: an empty chunk, a chunk holding a zero character and a
plain chunk appended to a non-empty target. -/
theorem C1_receive_string_reassembles_witness :
    (∀ c ∈ [[], [Char.ofNat 97, NUL, Char.ofNat 98], "cd".data], c.length < SIZE_MOD)
      ∧ receive_all [[], [Char.ofNat 97, NUL, Char.ofNat 98], "cd".data]
          (Curl_receive_string.prepare "x".data)
        = ({ out := "x".data ++ [Char.ofNat 97, NUL, Char.ofNat 98] ++ "cd".data }, [0, 3, 2]) := by
  have hb : ∀ c ∈ [[], [Char.ofNat 97, NUL, Char.ofNat 98], "cd".data],
      c.length < SIZE_MOD := by
    intro c hc
    simp only [List.mem_cons, List.mem_singleton, List.not_mem_nil, or_false] at hc
    rcases hc with rfl | rfl | rfl <;> simp [SIZE_MOD]
  refine ⟨hb, ?_⟩
  have h := (C1_receive_string_reassembles "x".data _ hb).1
  simpa using h

/-- C2: `curl_throw` raises a `Curl_error` and leaves the engine untouched (no status
query) when the transfer result is not `CURLE_OK`; otherwise it queries the status once
and raises a `Curl_error_http` whose `error_number` is the status when the status is not
200; otherwise it raises nothing.  It raises nothing exactly when the result is
`CURLE_OK` and the status is 200. -/
theorem C2_curl_throw_translation (E : Engine) (w : World) (curl : CURL) (res : Nat)
    (pfx url : CppString) :
    curl_throw E w curl res pfx url
        = (if res ≠ CURLE_OK then
            (.error (.Curl_error
              (Curl_error_msg (pfx ++ ", message=".data ++ strview (E.strerror res)) url)), w)
          else if E.response_code ≠ 200 then
            (.error (.Curl_error_http
              (Curl_error_msg (pfx ++ ", http_error=".data ++ to_string E.response_code) url)
              E.response_code),
             { w with log := w.log ++ [.easy_getinfo curl E.response_code] })
          else (.ok (), { w with log := w.log ++ [.easy_getinfo curl E.response_code] }))
      ∧ ((curl_throw E w curl res pfx url).1 = .ok ()
          ↔ res = CURLE_OK ∧ E.response_code = 200)
      ∧ (curl_throw (sample_engine [] 404) w curl CURLE_OK pfx url).1
          = .error (.Curl_error_http
              (pfx ++ ", http_error=404, url=".data ++ strview url) 404) := by
  refine ⟨?_, ?_, ?_⟩
  · by_cases h1 : res = CURLE_OK
    · by_cases h2 : E.response_code = 200 <;>
        simp [curl_throw, curl_res_throw, curl_http_throw, curl_easy_getinfo, h1, h2]
    · simp [curl_throw, curl_res_throw, h1]
  · by_cases h1 : res = CURLE_OK
    · by_cases h2 : E.response_code = 200 <;>
        simp [curl_throw, curl_res_throw, curl_http_throw, curl_easy_getinfo, h1, h2]
    · simp [curl_throw, curl_res_throw, h1]
  · have h404 : to_string 404 = "404".data := by decide
    simp [curl_throw, curl_res_throw, curl_http_throw, curl_easy_getinfo, sample_engine,
      Curl_error_msg, h404, CURLE_OK]

set_option maxRecDepth 8000 in
/-- C3, the code at a pre-failed stream: the first chunk is rejected and the callback
records "invalid input ostream" in the error slot, yet `curl_get` raises the
transport-result error built from `curl_easy_strerror`; the recorded message is not part
of what is raised, because the error slot is only tested before the transfer. -/
theorem C3_stream_failure_surfaces_as_transport_error :
    curl_get (sample_engine ["x".data] 200) World.start (.cstr "http://h".data)
        (.ostream failed_stream)
      = (.error (.Curl_error
          ("ERROR in curl get to ostream, message=".data
            ++ "Failed writing received data to disk/application".data
            ++ ", url=http://h".data)),
         { log := [.easy_init (some 1),
                   .easy_setopt (some 1) (.URL "http://h".data),
                   .easy_setopt (some 1) (.FOLLOWLOCATION 1),
                   .easy_setopt (some 1) (.WRITEFUNCTION .receive_ostream),
                   .easy_setopt (some 1) .WRITEDATA,
                   .easy_perform (some 1) CURLE_WRITE_ERROR,
                   .easy_cleanup (some 1)],
           writefunction := some .receive_ostream, writedata := true },
         .ostream failed_stream)
    ∧ (Curl_receive_ostream.finish (sample_engine ["x".data] 200)
          (details.curl_get_impl World.start (some 1) "http://h".data .receive_ostream)
          (some 1) "http://h".data (Curl_receive_ostream.prepare failed_stream)).2.2
      = some (.wrap_ostream { out := failed_stream, err := "invalid input ostream".data })
    ∧ ¬ ("invalid input ostream".data <:+:
          ("ERROR in curl get to ostream, message=".data
            ++ "Failed writing received data to disk/application".data
            ++ ", url=http://h".data)) := by
  refine ⟨by rfl, by rfl, by decide⟩

theorem strlen_eq_length_iff (d : CppString) : strlen d = d.length ↔ NUL ∉ d := by
  unfold strlen strview
  constructor
  · intro h
    have hp : d.takeWhile (fun c => c != NUL) <+: d := List.takeWhile_prefix _
    have he : d.takeWhile (fun c => c != NUL) = d := hp.eq_of_length h
    intro hmem
    have := (List.takeWhile_eq_self_iff.mp he) NUL hmem
    simp at this
  · intro h
    have he : d.takeWhile (fun c => c != NUL) = d := by
      apply List.takeWhile_eq_self_iff.mpr
      intro x hx
      have : x ≠ NUL := fun hxe => h (hxe ▸ hx)
      simpa using this
    rw [he]

/-- C4: `Curl_send_t<std::string>::send` sets the URL, the payload pointer to the data of
the string and the explicit payload length to `size()`, and nothing else: no transfer is
performed.  The length set agrees with the terminator-based length only for payloads
without a zero character.  For the five characters `a b \0 c d` the length set is 5, and
neither 4 nor the terminator-based length, which is 2, is ever set. -/
theorem C4_send_string_explicit_length (w : World) (curl : CURL) (url d : CppString) :
    Curl_send_string.send w curl url d
        = { w with log := w.log ++ [.easy_setopt curl (.URL url),
                                     .easy_setopt curl (.POSTFIELDS d),
                                     .easy_setopt curl (.POSTFIELDSIZE d.length)] }
      ∧ performed (Curl_send_string.send w curl url d).log = performed w.log
      ∧ (strlen d = d.length ↔ NUL ∉ d)
      ∧ (Curl_send_string.send World.start curl url payload_with_zero).log
          = [.easy_setopt curl (.URL url),
             .easy_setopt curl (.POSTFIELDS payload_with_zero),
             .easy_setopt curl (.POSTFIELDSIZE 5)]
      ∧ strlen payload_with_zero = 2
      ∧ Event.easy_setopt curl (.POSTFIELDSIZE 4)
          ∉ (Curl_send_string.send World.start curl url payload_with_zero).log
      ∧ Event.easy_setopt curl (.POSTFIELDSIZE (strlen payload_with_zero))
          ∉ (Curl_send_string.send World.start curl url payload_with_zero).log := by
  have hs : strlen payload_with_zero = 2 := by decide
  refine ⟨?_, ?_, strlen_eq_length_iff d, ?_, hs, ?_, ?_⟩
  · simp [Curl_send_string.send, curl_easy_setopt]
  · simp [Curl_send_string.send, curl_easy_setopt, performed, List.countP_append]
  · simp [Curl_send_string.send, curl_easy_setopt, World.start, payload_with_zero]
  · simp [Curl_send_string.send, curl_easy_setopt, World.start, payload_with_zero]
  · rw [hs]
    simp [Curl_send_string.send, curl_easy_setopt, World.start, payload_with_zero]

theorem curl_throw_fst (E : Engine) (w : World) (curl : CURL) (res : Nat)
    (pfx url : CppString) :
    (curl_throw E w curl res pfx url).1 = translation E res pfx url := by
  by_cases h1 : res = CURLE_OK
  · by_cases h2 : E.response_code = 200 <;>
      simp [translation, curl_throw, curl_res_throw, curl_http_throw, curl_easy_getinfo, h1, h2]
  · simp [translation, curl_throw, curl_res_throw, h1]

theorem curl_throw_snd (E : Engine) (w : World) (curl : CURL) (res : Nat)
    (pfx url : CppString) :
    (curl_throw E w curl res pfx url).2
      = { w with log := w.log ++ status_events E curl res } := by
  by_cases h1 : res = CURLE_OK
  · by_cases h2 : E.response_code = 200 <;>
      simp [status_events, curl_throw, curl_res_throw, curl_http_throw, curl_easy_getinfo,
        h1, h2]
  · simp [status_events, curl_throw, curl_res_throw, h1]

theorem curl_get_impl_eq (w : World) (curl : CURL) (url : CppString) (fn : WriteFn) :
    details.curl_get_impl w curl url fn
      = { log := w.log ++ install_events curl url fn, writefunction := some fn,
          writedata := true } := by
  simp [details.curl_get_impl, curl_easy_setopt, install_events]

theorem send_eq (w : World) (curl : CURL) (url : CppString) (send_me : Send_t) :
    Curl_send_t.send w curl url send_me
      = { w with log := w.log ++ send_events curl url send_me } := by
  cases send_me <;>
    simp [Curl_send_t.send, Curl_send_string.send, Curl_send_cstr.send, curl_easy_setopt,
      send_events]

theorem perform_installed (E : Engine) (log : List Event) (curl : CURL) (fn : WriteFn)
    (p : Prepared) :
    curl_easy_perform E { log := log, writefunction := some fn, writedata := true } curl
        (some p)
      = (transfer_result E fn p,
         { log := log ++ [.easy_perform curl (transfer_result E fn p)],
           writefunction := some fn, writedata := true },
         some (deliver fn E.chunks p).1) := by
  simp [curl_easy_perform, transfer_result]

theorem perform_no_data (E : Engine) (w : World) (curl : CURL) :
    curl_easy_perform E w curl none
      = (E.result false, { w with log := w.log ++ [.easy_perform curl (E.result false)] },
         none) := by
  unfold curl_easy_perform
  cases w.writefunction <;> cases w.writedata <;> simp

theorem curl_get_t_eq (E : Engine) (w : World) (curl : CURL) (url : CppString)
    (t : Receive_t) :
    details.curl_get_t E w curl url t
      = (translation E
            (transfer_result E (Curl_receive_t.receive t) (Curl_receive_t.prepare t))
            (Curl_receive_t.pfx t) url,
         { log := w.log ++ install_events curl url (Curl_receive_t.receive t)
                   ++ [.easy_perform curl
                        (transfer_result E (Curl_receive_t.receive t)
                          (Curl_receive_t.prepare t))]
                   ++ status_events E curl
                        (transfer_result E (Curl_receive_t.receive t)
                          (Curl_receive_t.prepare t)),
           writefunction := some (Curl_receive_t.receive t), writedata := true },
         (deliver (Curl_receive_t.receive t) E.chunks (Curl_receive_t.prepare t)).1.target) := by
  cases t <;>
    simp [details.curl_get_t, Curl_receive_t.finish, Curl_receive_string.finish,
      Curl_receive_ostream.finish, Curl_receive_t.prepare, Curl_receive_ostream.prepare,
      Curl_receive_t.receive, Curl_receive_t.pfx, curl_get_impl_eq, perform_installed,
      curl_throw_fst, curl_throw_snd]

theorem curl_post_t_eq (E : Engine) (w : World) (curl : CURL) (url : CppString)
    (send_me : Send_t) :
    details.curl_post_t E w curl url send_me
      = (translation E (E.result false) (Curl_send_t.pfx send_me) url,
         { w with log := w.log ++ send_events curl url send_me
                   ++ [.easy_perform curl (E.result false)]
                   ++ status_events E curl (E.result false) }) := by
  cases send_me <;>
    simp [details.curl_post_t, Curl_send_t.finish, Curl_send_string.finish,
      Curl_send_cstr.finish, Curl_send_t.pfx, send_eq, perform_no_data, curl_throw_fst,
      curl_throw_snd]

theorem curl_post_get_t_eq (E : Engine) (w : World) (curl : CURL) (url : CppString)
    (send_me : Send_t) (t : Receive_t) :
    details.curl_post_get_t E w curl url send_me t
      = (translation E
            (transfer_result E (Curl_receive_t.receive t) (Curl_receive_t.prepare t))
            (Curl_send_t.pfx send_me) url,
         { log := w.log ++ send_events curl url send_me
                   ++ install_events curl url (Curl_receive_t.receive t)
                   ++ [.easy_perform curl
                        (transfer_result E (Curl_receive_t.receive t)
                          (Curl_receive_t.prepare t))]
                   ++ status_events E curl
                        (transfer_result E (Curl_receive_t.receive t)
                          (Curl_receive_t.prepare t)),
           writefunction := some (Curl_receive_t.receive t), writedata := true },
         (deliver (Curl_receive_t.receive t) E.chunks (Curl_receive_t.prepare t)).1.target) := by
  cases send_me <;>
    simp [details.curl_post_get_t, Curl_send_t.finish, Curl_send_string.finish,
      Curl_send_cstr.finish, Curl_send_t.pfx, send_eq, curl_get_impl_eq, perform_installed,
      curl_throw_fst, curl_throw_snd]

theorem status_events_quiet (E : Engine) (curl : CURL) (res : Nat) :
    created (status_events E curl res) = 0 ∧ released (status_events E curl res) = 0 := by
  unfold status_events
  split <;> simp [created, released]

theorem scoped_log_counts (E : Engine) (before body : List Event)
    (hc : created body = 0) (hr : released body = 0) :
    created (scoped_log E before body) = created before + sessions_of E
      ∧ released (scoped_log E before body) = released before + sessions_of E := by
  unfold scoped_log sessions_of
  cases E.init with
  | none => simp [created, released, List.countP_append]
  | some s =>
    unfold created at hc
    unfold released at hr
    simp [created, released, List.countP_append, hc, hr]

theorem get_events_quiet (E : Engine) (curl : CURL) (url : CppString) (t : Receive_t) :
    created (get_events E curl url t) = 0 ∧ released (get_events E curl url t) = 0 := by
  have h := status_events_quiet E curl
    (transfer_result E (Curl_receive_t.receive t) (Curl_receive_t.prepare t))
  unfold created released at h
  simp [get_events, install_events, created, released, List.countP_append, h.1, h.2]

theorem send_events_quiet (curl : CURL) (url : CppString) (send_me : Send_t) :
    created (send_events curl url send_me) = 0 ∧ released (send_events curl url send_me) = 0 := by
  cases send_me <;> simp [send_events, created, released]

theorem post_events_quiet (E : Engine) (curl : CURL) (url : CppString) (send_me : Send_t) :
    created (post_events E curl url send_me) = 0
      ∧ released (post_events E curl url send_me) = 0 := by
  have h := status_events_quiet E curl (E.result false)
  have h2 := send_events_quiet curl url send_me
  unfold created released at h h2
  simp [post_events, created, released, List.countP_append, h.1, h.2, h2.1, h2.2]

theorem post_get_events_quiet (E : Engine) (curl : CURL) (url : CppString)
    (send_me : Send_t) (t : Receive_t) :
    created (post_get_events E curl url send_me t) = 0
      ∧ released (post_get_events E curl url send_me t) = 0 := by
  have h := get_events_quiet E curl url t
  have h2 := send_events_quiet curl url send_me
  unfold created released at h h2
  simp [post_get_events, created, released, List.countP_append, h.1, h.2, h2.1, h2.2]

theorem curl_get_scoped (E : Engine) (w : World) (url : Url_t) (t : Receive_t) :
    (curl_get E w url t).2.1.log
      = scoped_log E w.log (get_events E E.init (to_cstring url) t) := by
  unfold curl_get Curl_handle.ctor curl_easy_init scoped_log
  cases h : E.init with
  | none => simp
  | some s =>
    simp [curl_get_t_eq, Curl_handle.dtor, curl_easy_cleanup, get_events, List.append_assoc]

theorem curl_post_scoped (E : Engine) (w : World) (url : Url_t) (d : Send_t) :
    (curl_post E w url d).2.log
      = scoped_log E w.log (post_events E E.init (to_cstring url) d) := by
  unfold curl_post Curl_handle.ctor curl_easy_init scoped_log
  cases h : E.init with
  | none => simp
  | some s =>
    simp [curl_post_t_eq, Curl_handle.dtor, curl_easy_cleanup, post_events, List.append_assoc]

theorem curl_post_get_scoped (E : Engine) (w : World) (url : Url_t) (d : Send_t)
    (t : Receive_t) :
    (curl_post_get E w url d t).2.1.log
      = scoped_log E w.log (post_get_events E E.init (to_cstring url) d t) := by
  unfold curl_post_get Curl_handle.ctor curl_easy_init scoped_log
  cases h : E.init with
  | none => simp
  | some s =>
    simp [curl_post_get_t_eq, Curl_handle.dtor, curl_easy_cleanup, post_get_events,
      get_events, List.append_assoc]

/-- C5: each handle-less overload (`curl_get`, `curl_post`, `curl_post_get`) makes, for
every engine and every outcome, exactly the engine calls `scoped_log` describes: when the
session cannot be created, the failed creation and nothing else (no release); otherwise
the creation, the body, and one release of that session at the end.  Hence the sessions
created and the sessions released both grow by the same amount, 1 or 0. -/
theorem C5_sessions_created_equal_released (E : Engine) (w : World) (url : Url_t)
    (d : Send_t) (t : Receive_t) :
    ((curl_get E w url t).2.1.log
        = scoped_log E w.log (get_events E E.init (to_cstring url) t)
      ∧ created (curl_get E w url t).2.1.log = created w.log + sessions_of E
      ∧ released (curl_get E w url t).2.1.log = released w.log + sessions_of E)
    ∧ ((curl_post E w url d).2.log
        = scoped_log E w.log (post_events E E.init (to_cstring url) d)
      ∧ created (curl_post E w url d).2.log = created w.log + sessions_of E
      ∧ released (curl_post E w url d).2.log = released w.log + sessions_of E)
    ∧ ((curl_post_get E w url d t).2.1.log
        = scoped_log E w.log (post_get_events E E.init (to_cstring url) d t)
      ∧ created (curl_post_get E w url d t).2.1.log = created w.log + sessions_of E
      ∧ released (curl_post_get E w url d t).2.1.log = released w.log + sessions_of E) := by
  have hg := get_events_quiet E E.init (to_cstring url) t
  have hp := post_events_quiet E E.init (to_cstring url) d
  have hpg := post_get_events_quiet E E.init (to_cstring url) d t
  refine ⟨⟨curl_get_scoped E w url t, ?_⟩, ⟨curl_post_scoped E w url d, ?_⟩,
    ⟨curl_post_get_scoped E w url d t, ?_⟩⟩
  · rw [curl_get_scoped]; exact scoped_log_counts E _ _ hg.1 hg.2
  · rw [curl_post_scoped]; exact scoped_log_counts E _ _ hp.1 hp.2
  · rw [curl_post_get_scoped]; exact scoped_log_counts E _ _ hpg.1 hpg.2

/-- C6, the code at a moved handle: the defaulted move constructor copies the session
pointer and leaves it in the moved-from handle, so destroying the new handle and then the
moved-from one releases the same session twice. -/
theorem C6_move_then_destroy_releases_twice (s : Nat) (w : World) :
    (Curl_handle.move_ctor { curl := some s }).2.curl = some s
      ∧ (Curl_handle.move_ctor { curl := some s }).1.curl = some s
      ∧ released_of s
          ((Curl_handle.move_ctor { curl := some s }).2.dtor
            ((Curl_handle.move_ctor { curl := some s }).1.dtor w)).log
        = released_of s w.log + 2 := by
  simp [Curl_handle.move_ctor, Curl_handle.dtor, curl_easy_cleanup, released_of,
    List.count_append]

theorem has_ostream_base_iff (T : CppType) :
    has_ostream_base T = true ↔ T = .std_ostream ∨ DerivedFromOstream T := by
  induction T with
  | std_string => simp [has_ostream_base]; intro h; cases h
  | const_char_ptr => simp [has_ostream_base]; intro h; cases h
  | char_array N => simp [has_ostream_base]; intro h; cases h
  | std_ostream => simp [has_ostream_base]
  | other name => simp [has_ostream_base]; intro h; cases h
  | cv T _ => simp [has_ostream_base]; intro h; cases h
  | derived name base acc ih =>
    simp only [has_ostream_base, ih]
    constructor
    · rintro (h | h)
      · subst h; exact Or.inr (.direct name acc)
      · exact Or.inr (.step name base acc h)
    · rintro (h | h)
      · cases h
      · cases h with
        | direct => exact Or.inl rfl
        | step _ _ _ hb => exact Or.inr hb

theorem binds_to_ostream_ref_iff (T : CppType) :
    binds_to_ostream_ref T = true ↔ T = .std_ostream ∨ PubliclyDerivedFromOstream T := by
  induction T with
  | std_string => simp [binds_to_ostream_ref]; intro h; cases h
  | const_char_ptr => simp [binds_to_ostream_ref]; intro h; cases h
  | char_array N => simp [binds_to_ostream_ref]; intro h; cases h
  | std_ostream => simp [binds_to_ostream_ref]
  | other name => simp [binds_to_ostream_ref]; intro h; cases h
  | cv T _ => simp [binds_to_ostream_ref]; intro h; cases h
  | derived name base acc ih =>
    simp only [binds_to_ostream_ref, Bool.and_eq_true, ih]
    constructor
    · rintro ⟨ha, h | h⟩
      · subst h; subst ha; exact Or.inr (.direct name)
      · subst ha; exact Or.inr (.step name base h)
    · rintro (h | h)
      · cases h
      · cases h with
        | direct => exact ⟨rfl, Or.inl rfl⟩
        | step _ _ hb => exact ⟨rfl, Or.inr hb⟩

theorem publicly_derived_is_derived (T : CppType) (h : PubliclyDerivedFromOstream T) :
    DerivedFromOstream T := by
  induction h with
  | direct name => exact .direct name true
  | step name base _ ih => exact .step name base true ih

theorem remove_cv_derived (T : CppType) (h : DerivedFromOstream T) : remove_cv T = T := by
  cases h <;> rfl

theorem receive_value_iff (T : CppType) :
    Curl_receive_t.value T = true
      ↔ T = .std_string ∨ remove_cv T = .std_ostream ∨ DerivedFromOstream (remove_cv T) := by
  have hb := has_ostream_base_iff (remove_cv T)
  cases T with
  | std_string => simp [Curl_receive_t.value]
  | std_ostream => simp [Curl_receive_t.value, remove_cv]
  | const_char_ptr =>
    simpa [Curl_receive_t.value, is_base_of_ostream, is_same_ostream] using hb
  | char_array N =>
    simpa [Curl_receive_t.value, is_base_of_ostream, is_same_ostream] using hb
  | other name =>
    simpa [Curl_receive_t.value, is_base_of_ostream, is_same_ostream] using hb
  | derived name base acc =>
    simpa [Curl_receive_t.value, is_base_of_ostream, is_same_ostream] using hb
  | cv U =>
    simpa [Curl_receive_t.value, is_base_of_ostream, is_same_ostream] using hb

theorem string_like_iff (T : CppType) : To_cstring_t.value T = true ↔ StringLike T := by
  cases T <;> simp [To_cstring_t.value, StringLike]

theorem send_value_iff (T : CppType) : Curl_send_t.value T = true ↔ StringLike T := by
  cases T <;> simp [Curl_send_t.value, StringLike]

theorem to_cstring_compiles_iff (T : CppType) :
    to_cstring.compiles T = true ↔ StringLike T := by
  cases T <;> simp [to_cstring.compiles, To_cstring_t.value, To_cstring_t.binds, StringLike]

theorem curl_post_t_compiles_iff (T : CppType) :
    details.curl_post_t.compiles T = true ↔ StringLike T := by
  cases T <;>
    simp [details.curl_post_t.compiles, Curl_send_t.value, Curl_send_t.binds, StringLike]

theorem curl_get_t_compiles_iff (T : CppType) :
    details.curl_get_t.compiles T = true
      ↔ T = .std_string ∨ T = .std_ostream ∨ PubliclyDerivedFromOstream T := by
  unfold details.curl_get_t.compiles
  rw [Bool.and_eq_true, receive_value_iff]
  constructor
  · rintro ⟨_, hb⟩
    cases T with
    | std_string => exact Or.inl rfl
    | std_ostream => exact Or.inr (Or.inl rfl)
    | const_char_ptr => simp [Curl_receive_t.binds, binds_to_ostream_ref] at hb
    | char_array N => simp [Curl_receive_t.binds, binds_to_ostream_ref] at hb
    | other name => simp [Curl_receive_t.binds, binds_to_ostream_ref] at hb
    | cv U => simp [Curl_receive_t.binds, binds_to_ostream_ref] at hb
    | derived name base acc =>
      have h2 : binds_to_ostream_ref (.derived name base acc) = true := by
        simpa [Curl_receive_t.binds] using hb
      rcases (binds_to_ostream_ref_iff _).mp h2 with h | h
      · cases h
      · exact Or.inr (Or.inr h)
  · rintro (h | h | h)
    · subst h; simp [Curl_receive_t.binds]
    · subst h; simp [Curl_receive_t.binds, binds_to_ostream_ref, remove_cv]
    · have hd := publicly_derived_is_derived T h
      have hr := remove_cv_derived T hd
      refine ⟨Or.inr (Or.inr (by rw [hr]; exact hd)), ?_⟩
      have hb := (binds_to_ostream_ref_iff T).mpr (Or.inr h)
      cases h <;> simpa [Curl_receive_t.binds] using hb

/-- C7 as stated fails on the receive predicate and on the equivalence.
`Curl_receive_t<const std::ostream>::value` is true, because `std::is_base_of` ignores
cv-qualification, although `const std::ostream` is neither `std::string`, nor
`std::ostream`, nor a class derived from it.  And with all required predicates true, the
call `curl_get(url, target)` is still rejected for a `const std::ostream` target and for
a target of a class privately derived from `std::ostream`: the target does not bind to
the `std::ostream&` parameter of `prepare`. -/
theorem C7_counterexample :
    Curl_receive_t.value (.cv .std_ostream) = true
      ∧ CppType.cv .std_ostream ≠ .std_string
      ∧ CppType.cv .std_ostream ≠ .std_ostream
      ∧ ¬ DerivedFromOstream (.cv .std_ostream)
      ∧ To_cstring_t.value .std_string = true
      ∧ curl_get.enabled .std_string (.cv .std_ostream) = true
      ∧ curl_get.accepted .std_string (.cv .std_ostream) = false
      ∧ Curl_receive_t.value PrivStream = true
      ∧ curl_get.enabled .std_string PrivStream = true
      ∧ curl_get.accepted .std_string PrivStream = false
      ∧ curl_post_get.enabled .std_string .std_string PrivStream = true
      ∧ curl_post_get.accepted .std_string .std_string PrivStream = false := by
  have hnot : ¬ DerivedFromOstream (.cv .std_ostream) := fun h => nomatch h
  have hrest : To_cstring_t.value .std_string = true
      ∧ curl_get.enabled .std_string (.cv .std_ostream) = true
      ∧ curl_get.accepted .std_string (.cv .std_ostream) = false
      ∧ Curl_receive_t.value PrivStream = true
      ∧ curl_get.enabled .std_string PrivStream = true
      ∧ curl_get.accepted .std_string PrivStream = false
      ∧ curl_post_get.enabled .std_string .std_string PrivStream = true
      ∧ curl_post_get.accepted .std_string .std_string PrivStream = false := by decide
  exact ⟨rfl, CppType.noConfusion, CppType.noConfusion, hnot, hrest⟩

/-- C7, amended: the URL and the send predicate are true exactly for `std::string`,
`const char*` and `char[N]`; the receive predicate is true exactly for `std::string`, for
`std::ostream` and the classes derived from it, and for the cv-qualified versions of
`std::ostream` and of those classes.  A call is accepted exactly when its URL and payload
types are among the three and its target type is `std::string`, `std::ostream` or a class
publicly and unambiguously derived from `std::ostream`; so an accepted call has all the
predicates it requires true, a call with a false predicate is rejected, for `curl_post`
the predicates decide alone, and every call of `must_compile` is accepted. -/
theorem C7_trait_gating (T Url Send Receive : CppType) :
    (To_cstring_t.value T = true ↔ StringLike T)
    ∧ (Curl_send_t.value T = true ↔ StringLike T)
    ∧ (Curl_receive_t.value T = true
        ↔ T = .std_string ∨ remove_cv T = .std_ostream ∨ DerivedFromOstream (remove_cv T))
    ∧ (curl_get.accepted Url Receive = true
        ↔ StringLike Url
          ∧ (Receive = .std_string ∨ Receive = .std_ostream
              ∨ PubliclyDerivedFromOstream Receive))
    ∧ (curl_post.accepted Url Send = true ↔ StringLike Url ∧ StringLike Send)
    ∧ (curl_post_get.accepted Url Send Receive = true
        ↔ StringLike Url ∧ StringLike Send
          ∧ (Receive = .std_string ∨ Receive = .std_ostream
              ∨ PubliclyDerivedFromOstream Receive))
    ∧ (curl_get.accepted Url Receive = true →
        To_cstring_t.value Url = true ∧ Curl_receive_t.value Receive = true)
    ∧ (curl_post.accepted Url Send = true
        ↔ To_cstring_t.value Url = true ∧ Curl_send_t.value Send = true)
    ∧ (curl_post_get.accepted Url Send Receive = true →
        To_cstring_t.value Url = true ∧ Curl_send_t.value Send = true
          ∧ Curl_receive_t.value Receive = true)
    ∧ (curl_get.accepted .std_string .std_string = true
        ∧ curl_get.accepted .const_char_ptr .std_string = true
        ∧ curl_post.accepted .std_string .std_string = true
        ∧ curl_post.accepted .const_char_ptr .std_string = true
        ∧ curl_post.accepted .std_string .const_char_ptr = true
        ∧ curl_post.accepted .const_char_ptr .const_char_ptr = true
        ∧ curl_post_get.accepted .std_string .std_string .std_string = true
        ∧ curl_post_get.accepted .std_string .const_char_ptr .std_string = true
        ∧ curl_post_get.accepted .const_char_ptr .std_string .std_string = true
        ∧ curl_post_get.accepted .const_char_ptr .const_char_ptr .std_string = true
        ∧ to_cstring.compiles .std_string = true
        ∧ to_cstring.compiles .const_char_ptr = true
        ∧ to_cstring.compiles (.char_array 1) = true) := by
  have hu := string_like_iff Url
  have hs := send_value_iff Send
  have hcu := to_cstring_compiles_iff Url
  have hcs := curl_post_t_compiles_iff Send
  have hcr := curl_get_t_compiles_iff Receive
  have hget : curl_get.accepted Url Receive = true
      ↔ StringLike Url
        ∧ (Receive = .std_string ∨ Receive = .std_ostream
            ∨ PubliclyDerivedFromOstream Receive) := by
    unfold curl_get.accepted curl_get.enabled
    simp only [Bool.and_eq_true, hu, hcu, hcr]
    constructor
    · rintro ⟨⟨⟨h1, _⟩, _⟩, h3⟩
      exact ⟨h1, h3⟩
    · rintro ⟨h1, h3⟩
      have hv : Curl_receive_t.value Receive = true := by
        have := hcr.mpr h3
        simp only [details.curl_get_t.compiles, Bool.and_eq_true] at this
        exact this.1
      exact ⟨⟨⟨h1, hv⟩, h1⟩, h3⟩
  have hpost : curl_post.accepted Url Send = true ↔ StringLike Url ∧ StringLike Send := by
    unfold curl_post.accepted curl_post.enabled
    simp only [Bool.and_eq_true, hu, hs, hcu, hcs]
    constructor
    · rintro ⟨⟨⟨h1, h2⟩, _⟩, _⟩
      exact ⟨h1, h2⟩
    · rintro ⟨h1, h2⟩
      exact ⟨⟨⟨h1, h2⟩, h1⟩, h2⟩
  have hpg : curl_post_get.accepted Url Send Receive = true
      ↔ StringLike Url ∧ StringLike Send
        ∧ (Receive = .std_string ∨ Receive = .std_ostream
            ∨ PubliclyDerivedFromOstream Receive) := by
    have hsb : Curl_send_t.binds Send = true ↔ StringLike Send := by
      cases Send <;> simp [Curl_send_t.binds, StringLike]
    have hcr2 := hcr
    simp only [details.curl_get_t.compiles, Bool.and_eq_true] at hcr2
    unfold curl_post_get.accepted curl_post_get.enabled details.curl_post_get_t.compiles
    simp only [Bool.and_eq_true, hu, hs, hcu, hsb]
    constructor
    · rintro ⟨⟨⟨⟨h1, h2⟩, h3⟩, _⟩, ⟨⟨_, _⟩, _⟩, h4⟩
      exact ⟨h1, h2, hcr2.mp ⟨h3, h4⟩⟩
    · rintro ⟨h1, h2, h3⟩
      have h4 := hcr2.mpr h3
      exact ⟨⟨⟨⟨h1, h2⟩, h4.1⟩, h1⟩, ⟨⟨h2, h4.1⟩, h2⟩, h4.2⟩
  refine ⟨string_like_iff T, send_value_iff T, receive_value_iff T, hget, hpost, hpg, ?_,
    ?_, ?_, ?_⟩
  · intro h
    have h2 := hget.mp h
    have h4 := hcr.mpr h2.2
    simp only [details.curl_get_t.compiles, Bool.and_eq_true] at h4
    exact ⟨hu.mpr h2.1, h4.1⟩
  · rw [hpost, hu, hs]
  · intro h
    have h2 := hpg.mp h
    have h4 := hcr.mpr h2.2.2
    simp only [details.curl_get_t.compiles, Bool.and_eq_true] at h4
    exact ⟨hu.mpr h2.1, hs.mpr h2.2.1, h4.1⟩
  · decide

/-- C7 amended, at a `const char*` URL and a target of a class publicly derived from
`std::ostream`: the call of `curl_get` is accepted, and so both predicates are true. -/
theorem C7_trait_gating_witness :
    curl_get.accepted .const_char_ptr PubStream = true
      ∧ To_cstring_t.value .const_char_ptr = true
      ∧ Curl_receive_t.value PubStream = true := by
  have ha : curl_get.accepted .const_char_ptr PubStream = true := by decide
  exact ⟨ha,
    (C7_trait_gating .std_string .const_char_ptr .std_string PubStream).2.2.2.2.2.2.1 ha⟩

theorem translation_error_suffix (E : Engine) (res : Nat) (pfx url : CppString)
    (e : CurlException) (h : translation E res pfx url = .error e) :
    url_part url <:+ e.what := by
  by_cases h1 : res = CURLE_OK
  · by_cases h2 : E.response_code = 200
    · simp [translation, curl_throw, curl_res_throw, curl_http_throw, curl_easy_getinfo,
        h1, h2] at h
    · simp [translation, curl_throw, curl_res_throw, curl_http_throw, curl_easy_getinfo,
        h1, h2] at h
      subst h
      refine ⟨pfx ++ ", http_error=".data ++ to_string E.response_code, ?_⟩
      simp [CurlException.what, Curl_error_msg, url_part]
  · simp [translation, curl_throw, curl_res_throw, h1] at h
    subst h
    refine ⟨pfx ++ ", message=".data ++ strview (E.strerror res), ?_⟩
    simp [CurlException.what, Curl_error_msg, url_part]

theorem receive_finish_error_suffix (E : Engine) (w : World) (curl : CURL)
    (url : CppString) (p : Prepared) (e : CurlException)
    (h : (Curl_receive_t.finish E w curl url p).1 = .error e) :
    url_part url <:+ e.what := by
  cases p with
  | wrap_string p =>
    simp only [Curl_receive_t.finish, Curl_receive_string.finish, curl_throw_fst] at h
    exact translation_error_suffix _ _ _ _ _ h
  | wrap_ostream p =>
    simp only [Curl_receive_t.finish, Curl_receive_ostream.finish] at h
    split at h
    · simp at h
      subst h
      refine ⟨"ERROR in curl get to ostream, message=".data ++ p.err, ?_⟩
      simp [CurlException.what, url_part]
    · simp only [curl_throw_fst] at h
      exact translation_error_suffix _ _ _ _ _ h

theorem curl_get_fst (E : Engine) (w : World) (url : Url_t) (t : Receive_t) :
    (curl_get E w url t).1
      = match E.init with
        | none => .error init_error
        | some _ => translation E
            (transfer_result E (Curl_receive_t.receive t) (Curl_receive_t.prepare t))
            (Curl_receive_t.pfx t) (to_cstring url) := by
  unfold curl_get Curl_handle.ctor curl_easy_init
  cases h : E.init with
  | none => simp [init_error]
  | some s => simp [curl_get_t_eq]

theorem curl_post_fst (E : Engine) (w : World) (url : Url_t) (d : Send_t) :
    (curl_post E w url d).1
      = match E.init with
        | none => .error init_error
        | some _ => translation E (E.result false) (Curl_send_t.pfx d) (to_cstring url) := by
  unfold curl_post Curl_handle.ctor curl_easy_init
  cases h : E.init with
  | none => simp [init_error]
  | some s => simp [curl_post_t_eq]

theorem curl_post_get_fst (E : Engine) (w : World) (url : Url_t) (d : Send_t)
    (t : Receive_t) :
    (curl_post_get E w url d t).1
      = match E.init with
        | none => .error init_error
        | some _ => translation E
            (transfer_result E (Curl_receive_t.receive t) (Curl_receive_t.prepare t))
            (Curl_send_t.pfx d) (to_cstring url) := by
  unfold curl_post_get Curl_handle.ctor curl_easy_init
  cases h : E.init with
  | none => simp [init_error]
  | some s => simp [curl_post_get_t_eq]

theorem strview_eq_self_iff (u : CppString) : strview u = u ↔ NUL ∉ u := by
  rw [← strlen_eq_length_iff]
  unfold strlen
  constructor
  · intro h; rw [h]
  · intro h
    exact (List.takeWhile_prefix (fun c => c != NUL)).eq_of_length h

set_option maxRecDepth 8000 in
/-- C8 as stated fails twice.  When the session cannot be created, the handle-less
`curl_get` raises the fixed text of the `Curl_handle` constructor, which holds no
`", url="` at all.  And a `std::string` URL holding a zero character is appended as a C
string: the message of the transport failure ends with `", url=a"`, and does not contain
`", url="` followed by the whole URL `a \0 b`. -/
theorem C8_counterexample :
    (curl_get no_session_engine World.start (.cstr "http://h".data) (.string [])).1
        = .error (.Curl_error "ERROR in curl : cannot initialize curl".data)
      ∧ ¬ (", url=".data ++ "http://h".data
            <:+: "ERROR in curl : cannot initialize curl".data)
      ∧ ¬ (", url=".data <:+: "ERROR in curl : cannot initialize curl".data)
      ∧ (curl_get unreachable_engine World.start (.string url_with_zero) (.string [])).1
        = .error (.Curl_error "ERROR in curl get to string, message=Error, url=a".data)
      ∧ ¬ (", url=".data ++ url_with_zero
            <:+: "ERROR in curl get to string, message=Error, url=a".data) := by
  refine ⟨by rfl, by decide, by decide, by rfl, by decide⟩

/-- C8, amended: every error raised by the result/status translation of a call (transport
failure, HTTP status failure) and every error raised by a receive adapter's `finish`
(including the local-write-failure raise of the stream adapter) has a message that ends
with `", url="` followed by the URL read as a C string, which is the whole URL exactly
when the URL holds no zero character.  The only other error of the handle-less overloads
is the initialization failure, raised when no session could be created. -/
theorem C8_raised_errors_carry_url (E : Engine) (w : World) (h : Curl_handle) (url : Url_t)
    (d : Send_t) (t : Receive_t) (curl : CURL) (u : CppString) (p : Prepared)
    (e : CurlException) :
    ((curl_get_h E w h url t).1 = .error e → url_part (to_cstring url) <:+ e.what)
    ∧ ((curl_post_h E w h url d).1 = .error e → url_part (to_cstring url) <:+ e.what)
    ∧ ((curl_post_get_h E w h url d t).1 = .error e → url_part (to_cstring url) <:+ e.what)
    ∧ ((curl_get E w url t).1 = .error e →
        (E.init = none ∧ e = init_error) ∨ url_part (to_cstring url) <:+ e.what)
    ∧ ((curl_post E w url d).1 = .error e →
        (E.init = none ∧ e = init_error) ∨ url_part (to_cstring url) <:+ e.what)
    ∧ ((curl_post_get E w url d t).1 = .error e →
        (E.init = none ∧ e = init_error) ∨ url_part (to_cstring url) <:+ e.what)
    ∧ ((Curl_receive_t.finish E w curl u p).1 = .error e → url_part u <:+ e.what)
    ∧ (url_part (to_cstring url) = ", url=".data ++ to_cstring url
        ↔ NUL ∉ to_cstring url) := by
  refine ⟨?_, ?_, ?_, ?_, ?_, ?_, ?_, ?_⟩
  · intro he
    simp only [curl_get_h, curl_get_t_eq] at he
    exact translation_error_suffix _ _ _ _ _ he
  · intro he
    simp only [curl_post_h, curl_post_t_eq] at he
    exact translation_error_suffix _ _ _ _ _ he
  · intro he
    simp only [curl_post_get_h, curl_post_get_t_eq] at he
    exact translation_error_suffix _ _ _ _ _ he
  · intro he
    rw [curl_get_fst] at he
    cases hi : E.init with
    | none => rw [hi] at he; simp at he; exact Or.inl ⟨rfl, he.symm⟩
    | some s => rw [hi] at he; exact Or.inr (translation_error_suffix _ _ _ _ _ he)
  · intro he
    rw [curl_post_fst] at he
    cases hi : E.init with
    | none => rw [hi] at he; simp at he; exact Or.inl ⟨rfl, he.symm⟩
    | some s => rw [hi] at he; exact Or.inr (translation_error_suffix _ _ _ _ _ he)
  · intro he
    rw [curl_post_get_fst] at he
    cases hi : E.init with
    | none => rw [hi] at he; simp at he; exact Or.inl ⟨rfl, he.symm⟩
    | some s => rw [hi] at he; exact Or.inr (translation_error_suffix _ _ _ _ _ he)
  · exact receive_finish_error_suffix E w curl u p e
  · rw [← strview_eq_self_iff]
    simp [url_part]

set_option maxRecDepth 8000 in
/-- C8 amended, at a 404 answer: the HTTP status error of `curl_get` ends with the URL. -/
theorem C8_raised_errors_carry_url_witness :
    (curl_get_h (sample_engine [] 404) World.start { curl := some 1 }
        (.cstr "http://h".data) (.string [])).1
        = .error (.Curl_error_http
            "ERROR in curl get to string, http_error=404, url=http://h".data 404)
      ∧ url_part "http://h".data
          <:+ "ERROR in curl get to string, http_error=404, url=http://h".data :=
  ⟨by rfl,
   (C8_raised_errors_carry_url (sample_engine [] 404) World.start { curl := some 1 }
      (.cstr "http://h".data) (.string []) (.string []) none [] (.wrap_string { out := [] })
      (.Curl_error_http
        "ERROR in curl get to string, http_error=404, url=http://h".data 404)).1 (by rfl)⟩

theorem translation_ok_iff (E : Engine) (res : Nat) (pfx url : CppString) :
    translation E res pfx url = .ok () ↔ res = CURLE_OK ∧ E.response_code = 200 := by
  by_cases h1 : res = CURLE_OK
  · by_cases h2 : E.response_code = 200 <;>
      simp [translation, curl_throw, curl_res_throw, curl_http_throw, curl_easy_getinfo, h1, h2]
  · simp [translation, curl_throw, curl_res_throw, h1]

theorem get_events_performed (E : Engine) (curl : CURL) (url : CppString) (t : Receive_t) :
    performed (get_events E curl url t) = 1 := by
  unfold get_events status_events
  split <;> simp [performed, install_events, List.countP_append]

theorem send_events_performed (curl : CURL) (url : CppString) (d : Send_t) :
    performed (send_events curl url d) = 0 := by
  cases d <;> simp [performed, send_events]

theorem post_get_events_performed (E : Engine) (curl : CURL) (url : CppString)
    (d : Send_t) (t : Receive_t) :
    performed (post_get_events E curl url d t) = 1 := by
  have h1 := get_events_performed E curl url t
  have h2 := send_events_performed curl url d
  unfold performed at h1 h2
  simp [post_get_events, performed, List.countP_append, h1, h2]

/-- C9 as stated fails for the handle-less overload when the engine cannot create a
session: `curl_post_get` raises the initialization error, sets no option and performs no
transfer, although the translation of the transfer the engine would have made reports
success. -/
theorem C9_counterexample :
    curl_post_get no_session_engine World.start (.cstr "http://h".data)
        (.string "x=1".data) (.string [])
        = (.error init_error,
           { log := [.easy_init none], writefunction := none, writedata := false },
           .string [])
      ∧ performed (curl_post_get no_session_engine World.start (.cstr "http://h".data)
          (.string "x=1".data) (.string [])).2.1.log = 0
      ∧ translation no_session_engine (receive_result no_session_engine (.string []))
          (Curl_send_t.pfx (.string "x=1".data)) "http://h".data = .ok () := by
  refine ⟨by rfl, by rfl, by rfl⟩

/-- C9, amended: with a handle (the handle-taking overload always, the handle-less one
when the session was created) `curl_post_get` makes the calls of the send adapter's
`send`, then exactly the calls `curl_get` makes (URL, follow-redirects 1, the receive
callback, the prepared state as user data, one transfer, the status query on success),
so exactly one transfer; its outcome is the translation of that transfer's result with
the send adapter's message head, whatever the receive adapter recorded: it raises nothing
exactly when the result is `CURLE_OK` and the status 200.  When the session cannot be
created the handle-less overload raises the initialization error and does nothing else. -/
theorem C9_post_get_outcome (E : Engine) (w : World) (h : Curl_handle) (url : Url_t)
    (d : Send_t) (t : Receive_t) :
    curl_post_get_h E w h url d t
        = (translation E (receive_result E t) (Curl_send_t.pfx d) (to_cstring url),
           { log := w.log ++ post_get_events E h.curl (to_cstring url) d t,
             writefunction := some (Curl_receive_t.receive t), writedata := true },
           received E t)
    ∧ post_get_events E h.curl (to_cstring url) d t
        = send_events h.curl (to_cstring url) d
          ++ (install_events h.curl (to_cstring url) (Curl_receive_t.receive t)
          ++ [.easy_perform h.curl (receive_result E t)]
          ++ status_events E h.curl (receive_result E t))
    ∧ curl_get_h E w h url t
        = (translation E (receive_result E t) (Curl_receive_t.pfx t) (to_cstring url),
           { log := w.log ++ (install_events h.curl (to_cstring url) (Curl_receive_t.receive t)
               ++ [.easy_perform h.curl (receive_result E t)]
               ++ status_events E h.curl (receive_result E t)),
             writefunction := some (Curl_receive_t.receive t), writedata := true },
           received E t)
    ∧ performed (curl_post_get_h E w h url d t).2.1.log = performed w.log + 1
    ∧ ((curl_post_get_h E w h url d t).1 = .ok ()
        ↔ receive_result E t = CURLE_OK ∧ E.response_code = 200)
    ∧ (curl_post_get E w url d t).1
        = (match E.init with
            | none => .error init_error
            | some _ =>
                translation E (receive_result E t) (Curl_send_t.pfx d) (to_cstring url))
    ∧ (curl_post_get E w url d t).2.1.log
        = scoped_log E w.log (post_get_events E E.init (to_cstring url) d t)
    ∧ performed (curl_post_get E w url d t).2.1.log = performed w.log + sessions_of E := by
  have heq : curl_post_get_h E w h url d t
        = (translation E (receive_result E t) (Curl_send_t.pfx d) (to_cstring url),
           { log := w.log ++ post_get_events E h.curl (to_cstring url) d t,
             writefunction := some (Curl_receive_t.receive t), writedata := true },
           received E t) := by
    simp [curl_post_get_h, curl_post_get_t_eq, post_get_events, get_events, receive_result,
      received, List.append_assoc]
  have hp := post_get_events_performed E h.curl (to_cstring url) d t
  have hp2 := post_get_events_performed E E.init (to_cstring url) d t
  refine ⟨heq, ?_, ?_, ?_, ?_, ?_, curl_post_get_scoped E w url d t, ?_⟩
  · simp [post_get_events, get_events, receive_result]
  · simp [curl_get_h, curl_get_t_eq, receive_result, received, List.append_assoc]
  · rw [heq]
    unfold performed at hp ⊢
    simp [List.countP_append, hp]
  · rw [heq]
    exact translation_ok_iff _ _ _ _
  · rw [curl_post_get_fst]; rfl
  · rw [curl_post_get_scoped]
    unfold scoped_log sessions_of
    unfold performed at hp2 ⊢
    cases hi : E.init with
    | none => simp [List.countP_append]
    | some s =>
      rw [hi] at hp2
      simp [List.countP_append, hp2]

theorem perform_world (E : Engine) (w : World) (curl : CURL) (mem : Option Prepared) :
    (curl_easy_perform E w curl mem).2.1
      = { w with log := w.log ++ [.easy_perform curl (curl_easy_perform E w curl mem).1] } := by
  simp [curl_easy_perform]

theorem translation_kind (E : Engine) (res : Nat) (pfx url : CppString) :
    outcome_kind (translation E res pfx url)
      = if res ≠ CURLE_OK then some none
        else if E.response_code ≠ 200 then some (some E.response_code) else none := by
  by_cases h1 : res = CURLE_OK
  · by_cases h2 : E.response_code = 200 <;>
      simp [translation, curl_throw, curl_res_throw, curl_http_throw, curl_easy_getinfo,
        outcome_kind, h1, h2]
  · simp [translation, curl_throw, curl_res_throw, outcome_kind, h1]

theorem translation_message (E : Engine) (res : Nat) (url : CppString) :
    ∃ tail : CppString, ∀ (pfx : CppString) (e : CurlException),
      translation E res pfx url = .error e → e.what = pfx ++ tail := by
  by_cases h1 : res = CURLE_OK
  · refine ⟨", http_error=".data ++ to_string E.response_code ++ url_part url, ?_⟩
    intro pfx e h
    by_cases h2 : E.response_code = 200
    · simp [translation, curl_throw, curl_res_throw, curl_http_throw, curl_easy_getinfo,
        h1, h2] at h
    · simp [translation, curl_throw, curl_res_throw, curl_http_throw, curl_easy_getinfo,
        h1, h2] at h
      subst h
      simp [CurlException.what, Curl_error_msg, url_part]
  · refine ⟨", message=".data ++ strview (E.strerror res) ++ url_part url, ?_⟩
    intro pfx e h
    simp [translation, curl_throw, curl_res_throw, h1] at h
    subst h
    simp [CurlException.what, Curl_error_msg, url_part]

theorem status_events_performed (E : Engine) (curl : CURL) (res : Nat) :
    performed (status_events E curl res) = 0 := by
  unfold status_events
  split <;> simp [performed]

/-- C11: when the error slot of `p` is non-empty, `Curl_receive_t<std::ostream>::finish`
raises a `Curl_error` whose message holds the recorded text and makes no engine call (no
transfer, no status query).  When the slot is empty it performs exactly one transfer and
its outcome is the translation of that transfer's result, as for the buffer adapter's
`finish`: for every result code and status both translations agree on whether something
is raised, on the kind of error and on the status code, and their messages differ only in
the head. -/
theorem C11_ostream_finish (E : Engine) (w : World) (curl : CURL) (url : CppString)
    (p : Curl_wrap_ostream) (q : Curl_wrap_string) (res : Nat) :
    (p.err ≠ [] →
        Curl_receive_ostream.finish E w curl url p
            = (.error (.Curl_error
                ("ERROR in curl get to ostream, message=".data ++ p.err ++ ", url=".data
                  ++ strview url)),
               w, some (.wrap_ostream p))
          ∧ p.err <:+: ("ERROR in curl get to ostream, message=".data ++ p.err
                ++ ", url=".data ++ strview url)
          ∧ performed (Curl_receive_ostream.finish E w curl url p).2.1.log = performed w.log
          ∧ status_queries (Curl_receive_ostream.finish E w curl url p).2.1.log
              = status_queries w.log)
    ∧ (p.err = [] →
        (Curl_receive_ostream.finish E w curl url p).1
            = translation E (curl_easy_perform E w curl (some (.wrap_ostream p))).1
                ostream_pfx url
          ∧ (Curl_receive_ostream.finish E w curl url p).2.1.log
            = w.log
              ++ [.easy_perform curl (curl_easy_perform E w curl (some (.wrap_ostream p))).1]
              ++ status_events E curl
                  (curl_easy_perform E w curl (some (.wrap_ostream p))).1
          ∧ performed (Curl_receive_ostream.finish E w curl url p).2.1.log
            = performed w.log + 1)
    ∧ ((Curl_receive_string.finish E w curl url q).1
          = translation E (curl_easy_perform E w curl (some (.wrap_string q))).1
              string_pfx url
        ∧ (Curl_receive_string.finish E w curl url q).2.1.log
          = w.log
            ++ [.easy_perform curl (curl_easy_perform E w curl (some (.wrap_string q))).1]
            ++ status_events E curl (curl_easy_perform E w curl (some (.wrap_string q))).1)
    ∧ outcome_kind (translation E res ostream_pfx url)
        = outcome_kind (translation E res string_pfx url)
    ∧ (∃ tail : CppString, ∀ e1 e2 : CurlException,
        translation E res ostream_pfx url = .error e1 →
        translation E res string_pfx url = .error e2 →
          e1.what = ostream_pfx ++ tail ∧ e2.what = string_pfx ++ tail) := by
  refine ⟨?_, ?_, ?_, ?_, ?_⟩
  · intro hp
    have heq : Curl_receive_ostream.finish E w curl url p
        = (.error (.Curl_error
            ("ERROR in curl get to ostream, message=".data ++ p.err ++ ", url=".data
              ++ strview url)),
           w, some (.wrap_ostream p)) := by
      simp [Curl_receive_ostream.finish, hp]
    refine ⟨heq, ?_, ?_, ?_⟩
    · exact ⟨"ERROR in curl get to ostream, message=".data, ", url=".data ++ strview url,
        by simp⟩
    · rw [heq]
    · rw [heq]
  · intro hp
    have hs := status_events_performed E curl
      (curl_easy_perform E w curl (some (.wrap_ostream p))).1
    unfold performed at hs
    simp [Curl_receive_ostream.finish, hp, curl_throw_fst, curl_throw_snd, perform_world,
      ostream_pfx, performed, List.countP_append, hs]
  · simp [Curl_receive_string.finish, curl_throw_fst, curl_throw_snd, perform_world,
      string_pfx]
  · rw [translation_kind, translation_kind]
  · obtain ⟨tail, ht⟩ := translation_message E res url
    exact ⟨tail, fun e1 e2 h1 h2 => ⟨ht _ _ h1, ht _ _ h2⟩⟩

set_option maxRecDepth 8000 in
/-- C11 at a state whose slot holds `disk full`, where the error raised carries that text
and the engine is not called, and at a freshly prepared state, where one transfer is
performed. -/
theorem C11_ostream_finish_witness :
    recorded_state.err ≠ []
      ∧ Curl_receive_ostream.finish (sample_engine [] 200) World.start (some 1)
          "http://h".data recorded_state
        = (.error (.Curl_error
            ("ERROR in curl get to ostream, message=".data ++ recorded_state.err
              ++ ", url=".data ++ strview "http://h".data)),
           World.start, some (.wrap_ostream recorded_state))
      ∧ (Curl_receive_ostream.prepare good_stream).err = []
      ∧ performed (Curl_receive_ostream.finish (sample_engine [] 200) World.start (some 1)
          "http://h".data (Curl_receive_ostream.prepare good_stream)).2.1.log
        = performed World.start.log + 1 := by
  have hne : recorded_state.err ≠ [] := by decide
  have he : (Curl_receive_ostream.prepare good_stream).err = [] := rfl
  exact ⟨hne,
    ((C11_ostream_finish (sample_engine [] 200) World.start (some 1)
      "http://h".data recorded_state { out := [] } 0).1 hne).1,
    he,
    ((C11_ostream_finish (sample_engine [] 200) World.start (some 1)
      "http://h".data (Curl_receive_ostream.prepare good_stream) { out := [] } 0).2.1 he).2.2⟩

theorem scoped_log_performed (E : Engine) (before body : List Event)
    (hb : performed body = 1) :
    performed (scoped_log E before body) = performed before + sessions_of E := by
  unfold scoped_log sessions_of
  unfold performed at hb ⊢
  cases E.init with
  | none => simp [List.countP_append]
  | some s => simp [List.countP_append, hb]

theorem install_events_performed (curl : CURL) (url : CppString) (fn : WriteFn) :
    performed (install_events curl url fn) = 0 := by
  simp [performed, install_events]

/-- C12 as stated fails for the handle-less overload when the engine cannot create a
session: `curl_get` with a stream target performs no transfer and raises the
initialization error, although the translation of the transfer the engine would have made
reports success. -/
theorem C12_counterexample :
    curl_get no_session_engine World.start (.cstr "http://h".data) (.ostream good_stream)
        = (.error init_error,
           { log := [.easy_init none], writefunction := none, writedata := false },
           .ostream good_stream)
      ∧ performed (curl_get no_session_engine World.start (.cstr "http://h".data)
          (.ostream good_stream)).2.1.log = 0
      ∧ translation no_session_engine
          (receive_result no_session_engine (.ostream good_stream))
          ostream_pfx "http://h".data = .ok () := by
  refine ⟨by rfl, by rfl, by rfl⟩

/-- C12, amended: in `curl_get` with a stream target the state handed to `finish` is the
one `prepare` made, its error slot is empty, and `curl_get_impl` in between only sets
four options (no transfer, so no callback runs); the early raise of the stream `finish`
is therefore never taken.  With a handle (the handle-taking overload always, the
handle-less one when the session was created) every `curl_get`, stream or buffer target,
performs exactly one transfer and raises nothing exactly when that transfer's result is
`CURLE_OK` and the status 200.  When the session cannot be created the handle-less
overload raises the initialization error and performs no transfer. -/
theorem C12_get_single_transfer (E : Engine) (w : World) (h : Curl_handle) (url : Url_t)
    (os : OStream) (t : Receive_t) :
    (Curl_receive_ostream.prepare os).err = []
    ∧ Curl_receive_t.prepare (.ostream os) = .wrap_ostream (Curl_receive_ostream.prepare os)
    ∧ (details.curl_get_impl w h.curl (to_cstring url) .receive_ostream).log
        = w.log ++ install_events h.curl (to_cstring url) .receive_ostream
    ∧ performed (install_events h.curl (to_cstring url) .receive_ostream) = 0
    ∧ (curl_get_h E w h url (.ostream os)).1
        = (Curl_receive_ostream.finish E
            (details.curl_get_impl w h.curl (to_cstring url) .receive_ostream) h.curl
            (to_cstring url) (Curl_receive_ostream.prepare os)).1
    ∧ (Curl_receive_ostream.finish E
          (details.curl_get_impl w h.curl (to_cstring url) .receive_ostream) h.curl
          (to_cstring url) (Curl_receive_ostream.prepare os)).1
        = translation E (receive_result E (.ostream os)) ostream_pfx (to_cstring url)
    ∧ curl_get_h E w h url t
        = (translation E (receive_result E t) (Curl_receive_t.pfx t) (to_cstring url),
           { log := w.log ++ get_events E h.curl (to_cstring url) t,
             writefunction := some (Curl_receive_t.receive t), writedata := true },
           received E t)
    ∧ performed (curl_get_h E w h url t).2.1.log = performed w.log + 1
    ∧ ((curl_get_h E w h url t).1 = .ok ()
        ↔ receive_result E t = CURLE_OK ∧ E.response_code = 200)
    ∧ (curl_get E w url t).1
        = (match E.init with
            | none => .error init_error
            | some _ =>
                translation E (receive_result E t) (Curl_receive_t.pfx t) (to_cstring url))
    ∧ (curl_get E w url t).2.1.log
        = scoped_log E w.log (get_events E E.init (to_cstring url) t)
    ∧ performed (curl_get E w url t).2.1.log = performed w.log + sessions_of E := by
  have heq : curl_get_h E w h url t
        = (translation E (receive_result E t) (Curl_receive_t.pfx t) (to_cstring url),
           { log := w.log ++ get_events E h.curl (to_cstring url) t,
             writefunction := some (Curl_receive_t.receive t), writedata := true },
           received E t) := by
    simp [curl_get_h, curl_get_t_eq, get_events, receive_result, received,
      List.append_assoc]
  have hp := get_events_performed E h.curl (to_cstring url) t
  refine ⟨rfl, rfl, ?_, install_events_performed _ _ _, ?_, ?_, heq, ?_, ?_, ?_,
    curl_get_scoped E w url t, ?_⟩
  · simp [curl_get_impl_eq]
  · simp [curl_get_h, details.curl_get_t, Curl_receive_t.finish, Curl_receive_t.prepare,
      Curl_receive_t.receive]
  · simp [Curl_receive_ostream.finish, Curl_receive_ostream.prepare, curl_get_impl_eq,
      perform_installed, curl_throw_fst, receive_result, Curl_receive_t.receive,
      Curl_receive_t.prepare, ostream_pfx]
  · rw [heq]
    unfold performed at hp ⊢
    simp [List.countP_append, hp]
  · rw [heq]
    exact translation_ok_iff _ _ _ _
  · rw [curl_get_fst]; rfl
  · rw [curl_get_scoped]
    exact scoped_log_performed E _ _ (get_events_performed E E.init (to_cstring url) t)

end curl_cpp
